import Mathlib

/-!
Verification of the DiffCOT review-orchestration engine.

Shallow embedding of the Python backend:
* `backend/api/routes/review.py` — final synthesis retry loop and retry hint,
* `backend/review_engine/review_workflow.py` — workflow nodes and graph wiring,
* `backend/configs/pr_size_limits.py` — size metrics and processing-mode selection,
* `backend/client/context_extractor.py` — context prompt assembly with size budgets,
* `backend/utils/json_parser.py` — JSON-from-free-text decode fallback chain.

Machine integers do not overflow in the modelled code paths (Python ints are
unbounded), so counts and sizes are `Nat`.  Strings are Lean `String`s; Python
slicing `s[:n]` is `String.take`-style truncation on the character list.
-/

namespace DiffCOT

/-! ### Synthesis loop (`backend/api/routes/review.py`, `start_review`)

`_perform_ai_review` returns `(success, result, error, review)`; the loop in
`start_review` only looks at `success`, `error` and `len(review.issues)`, so an
attempt is modelled as `Except String Nat`: an API failure with its error
message, or a successful call with the number of issues in the parsed verdict.
-/

/-- Result of the `while attempt < max_attempts` loop in `start_review`:
either an attempt's model call failed (the route returns the error), or the
loop finished (first attempt with issues, or ceiling reached). -/
inductive LoopResult where
  | apiError (err : String) (callsMade : Nat)
  | done (callsMade : Nat)
deriving Repr, DecidableEq

/-- Number of `_perform_ai_review` calls the loop made. -/
def callsMade : LoopResult → Nat
  | .apiError _ n => n
  | .done n => n

/-- The retry loop of `start_review` (review.py lines 332-368):
`attempt` starts at 0 and is incremented before each call; the loop runs while
`attempt < max_attempts` and breaks as soon as `len(review.issues) > 0`.
`remaining` is `max_attempts - attempt`. -/
def synthesisLoop (oracle : Nat → Except String Nat) : Nat → Nat → LoopResult
  | attempt, 0 => .done attempt
  | attempt, remaining + 1 =>
      match oracle (attempt + 1) with
      | .error e => .apiError e (attempt + 1)
      | .ok issues =>
          if 0 < issues then .done (attempt + 1)
          else synthesisLoop oracle (attempt + 1) remaining

/-- `max_attempts = request.max_retries if request.retry_until_issues_found else 1`
(review.py line 326). -/
def maxAttemptsOf (retryUntilIssuesFound : Bool) (maxRetries : Nat) : Nat :=
  if retryUntilIssuesFound then maxRetries else 1

/-- The whole retry phase of `start_review`. -/
def runSynthesisLoop (oracle : Nat → Except String Nat)
    (retryUntilIssuesFound : Bool) (maxRetries : Nat) : LoopResult :=
  synthesisLoop oracle 0 (maxAttemptsOf retryUntilIssuesFound maxRetries)

/-- Example issue-count schedule: attempts 1 and 2 find nothing, attempt 3
finds two issues. -/
def issuesEx : Nat → Nat := fun n => if n = 3 then 2 else 0

/-! ### Retry hint (`backend/api/routes/review.py`, `_perform_ai_review`) -/

/-- Leading characters of the retry hint, up to the interpolated attempt
number (review.py line 123). -/
def escMarker : String := "\n\n**IMPORTANT (Attempt "

/-- The rest of the retry hint after the attempt number: the fixed checklist
of issue categories (review.py lines 123-134). -/
def escTail : String :=
  ")**: Previous analysis found no issues. Since this PR is known to have problems, please analyze MORE CAREFULLY. Look for:\n"
  ++ "- Subtle bugs or logic errors\n"
  ++ "- Missing error handling\n"
  ++ "- Security vulnerabilities\n"
  ++ "- Performance issues\n"
  ++ "- Code style/best practice violations\n"
  ++ "- Missing edge case handling\n"
  ++ "- Incorrect API usage\n"
  ++ "- Type mismatches or missing type checks\n"
  ++ "- Resource leaks or cleanup issues\n"
  ++ "- Concurrency/race condition issues\n"
  ++ "\nYou MUST find at least one issue. Do not say the code is perfect.\n"

/-- `retry_hint` built in `_perform_ai_review` for a given attempt number;
the f-string interpolates the decimal attempt number. -/
def retryHint (attempt : Nat) : String := escMarker ++ toString attempt ++ escTail

/-- The combined prompt `_perform_ai_review` passes on to `review_code`
(review.py lines 119-139): the retry hint is prepended exactly when
`attempt > 1`. -/
def promptWithRetryHint (attempt : Nat) (combinedPrompt : String) : String :=
  if 1 < attempt then
    if combinedPrompt ≠ "" then retryHint attempt ++ combinedPrompt
    else retryHint attempt
  else combinedPrompt

/-- `pat` occurs as a contiguous substring of `s`. -/
def containsStr (pat s : String) : Prop := pat.data <:+: s.data

instance (pat s : String) : Decidable (containsStr pat s) := by
  unfold containsStr; infer_instance

/-! ### JSON values

Values produced by `json.loads`.  JSON numbers are modelled as integers: no
claim inspects a fractional value, and floating point is outside the
embedding. -/

/-- A decoded JSON value. -/
inductive JVal where
  | null
  | bool (b : Bool)
  | num (n : Int)
  | str (s : String)
  | arr (xs : List JVal)
  | obj (fields : List (String × JVal))

/-- Python truthiness of a decoded JSON value (`if value:`). -/
def JVal.truthy : JVal → Bool
  | .null => false
  | .bool b => b
  | .num n => n != 0
  | .str s => s != ""
  | .arr xs => !xs.isEmpty
  | .obj fs => !fs.isEmpty

/-- `dict.get(key)` on a decoded JSON object, modelled as first-match lookup
in the field list (Python dict keys are unique). -/
def dget (d : List (String × JVal)) (k : String) : Option JVal :=
  (d.find? (fun p => p.1 == k)).map (·.2)

/-- Model of Python `repr` for decoded JSON values (string escaping is not
modelled; no claim depends on it). -/
def pyRepr : JVal → String
  | .null => "None"
  | .bool b => if b then "True" else "False"
  | .num n => toString n
  | .str s => "\x27" ++ s ++ "\x27"
  | .arr xs => "[" ++ ", ".intercalate (xs.attach.map (fun x => pyRepr x.1)) ++ "]"
  | .obj fs =>
      "\x7b" ++ ", ".intercalate
        (fs.attach.map (fun p => "\x27" ++ p.1.1 ++ "\x27: " ++ pyRepr p.1.2)) ++ "\x7d"
decreasing_by
  · have := List.sizeOf_lt_of_mem x.2
    simp at this ⊢
    omega
  · rcases p with ⟨⟨k, v⟩, hmem⟩
    have := List.sizeOf_lt_of_mem hmem
    simp at this ⊢
    omega

/-- Model of Python `str` as used by f-string interpolation of decoded JSON
values. -/
def pyStr : JVal → String
  | .str s => s
  | v => pyRepr v

/-- Model of the `:.0%` format spec applied to a numeric JSON value
(a non-numeric value would raise in Python; such states are outside the
modelled behaviour). -/
def pyPercent : JVal → String
  | .num n => toString (n * 100) ++ "%"
  | _ => ""

/-- Python iteration over a decoded JSON value (`for x in value:`); only list
values are iterated in the modelled code paths. -/
def jIter : JVal → List JVal
  | .arr xs => xs
  | _ => []

/-- Python truthiness of an `Optional[str]` state field (`None` and the empty
string are falsy). -/
def errTruthy : Option String → Bool
  | none => false
  | some s => s != ""

/-- Python `"".join(sections)`. -/
def pyJoin : List String → String
  | [] => ""
  | x :: xs => x ++ pyJoin xs

/-! ### Result combiner (`review_workflow.py`, `combine_analysis_results`) -/

/-- The slice of `ReviewState` read by `combine_analysis_results`. -/
structure CombineState where
  context_prompt_section : String
  sast_success : Bool
  sast_prompt_section : String
  sast_error : Option String
  sast_duration_ms : Nat
  symbol_table_prompt : String
  intent_success : Bool
  intent_analysis : List (String × JVal)
  intent_error : Option String
  intent_duration_ms : Nat

/-- Strings appended for the context section (review_workflow.py 600-601). -/
def contextSections (s : CombineState) : List String :=
  if s.context_prompt_section != "" then [s.context_prompt_section] else []

/-- The SAST results block (review_workflow.py 605-607). -/
def sastResultBlock (s : CombineState) : List String :=
  ["\n---\n## Static Analysis (SAST) Findings\n",
   s.sast_prompt_section,
   "\n*SAST completed in " ++ toString s.sast_duration_ms ++ "ms*\n"]

/-- The one-line SAST failure warning (review_workflow.py 609). -/
def sastWarningLine (s : CombineState) : String :=
  "\n---\n## SAST Analysis\n⚠️ SAST analysis failed: " ++ s.sast_error.getD "" ++ "\n"

/-- Strings appended for the SAST section (review_workflow.py 604-609):
results block when SAST succeeded with a non-empty prompt section, else a
warning line when a truthy error is recorded, else nothing. -/
def sastSections (s : CombineState) : List String :=
  if s.sast_success && s.sast_prompt_section != "" then
    sastResultBlock s
  else if errTruthy s.sast_error then
    [sastWarningLine s]
  else []

/-- Strings appended for the symbol table (review_workflow.py 612-614). -/
def symbolSections (s : CombineState) : List String :=
  if s.symbol_table_prompt != "" then ["\n---\n", s.symbol_table_prompt] else []

/-- The body of the intent-analysis results block
(review_workflow.py 618-643). -/
def intentBody (intent : List (String × JVal)) (durationMs : Nat) : List String :=
  ["\n---\n## Intent Analysis\n",
   "\n### Purpose\n" ++ pyStr ((dget intent "purpose").getD (.str "Not determined")) ++ "\n",
   "\n### Implementation Approach\n"
     ++ pyStr ((dget intent "implementation_approach").getD (.str "Not analyzed")) ++ "\n"]
  ++ (if ((dget intent "key_changes").getD .null).truthy then
        "\n### Key Changes\n"
          :: (jIter ((dget intent "key_changes").getD .null)).map
              (fun c => "- " ++ pyStr c ++ "\n")
      else [])
  ++ (if ((dget intent "potential_issues").getD .null).truthy then
        "\n### Potential Issues (from Intent Analysis)\n"
          :: (jIter ((dget intent "potential_issues").getD .null)).map
              (fun i => "- ⚠️ " ++ pyStr i ++ "\n")
      else [])
  ++ (if ((dget intent "missing_considerations").getD .null).truthy then
        "\n### Missing Considerations\n"
          :: (jIter ((dget intent "missing_considerations").getD .null)).map
              (fun c => "- 💡 " ++ pyStr c ++ "\n")
      else [])
  ++ (if ((dget intent "architectural_impact").getD .null).truthy then
        ["\n### Architectural Impact\n"
          ++ pyStr ((dget intent "architectural_impact").getD .null) ++ "\n"]
      else [])
  ++ ["\n*Intent Analysis Confidence: "
        ++ pyPercent ((dget intent "confidence").getD (.num 0)) ++ "*\n",
      "*Intent Analysis completed in " ++ toString durationMs ++ "ms*\n"]

/-- The one-line intent-analysis failure warning (review_workflow.py 646). -/
def intentWarningLine (s : CombineState) : String :=
  "\n---\n## Intent Analysis\n⚠️ Intent analysis failed: " ++ s.intent_error.getD "" ++ "\n"

/-- Strings appended for the intent section (review_workflow.py 617-646):
results block when the stage succeeded with a non-empty analysis dict, else a
warning line when a truthy error is recorded, else nothing. -/
def intentSections (s : CombineState) : List String :=
  if s.intent_success && !s.intent_analysis.isEmpty then
    intentBody s.intent_analysis s.intent_duration_ms
  else if errTruthy s.intent_error then
    [intentWarningLine s]
  else []

/-- `combine_analysis_results` (review_workflow.py 593-651): the appended
section strings joined with `"".join`. -/
def combine_analysis_results (s : CombineState) : String :=
  pyJoin (contextSections s ++ sastSections s ++ symbolSections s ++ intentSections s)

/-- A reachable workflow state for which SAST ran and succeeded with zero
findings: `run_sast_analysis` then sets `sast_prompt_section = ""` and
`sast_error = None`. -/
def c2State : CombineState :=
  { context_prompt_section := "CTX"
    sast_success := true
    sast_prompt_section := ""
    sast_error := none
    sast_duration_ms := 100
    symbol_table_prompt := ""
    intent_success := false
    intent_analysis := []
    intent_error := some "Failed to parse intent analysis response"
    intent_duration_ms := 5 }

/-! ### Workflow graph (`review_workflow.py`, `create_review_workflow`)

The graph is executed by the external LangGraph library.  Its documented
`StateGraph` semantics: when a node finishes a superstep, the target chosen by
its conditional-edge router AND the targets of all its ordinary `add_edge`
edges are activated for the next superstep; `END` is a sink that runs
nothing. -/

/-- Nodes declared in `create_review_workflow`
(review_workflow.py 679-682), plus the `END` sink. -/
inductive WNode where
  | fetch_pr_data_node
  | run_sast_analysis_node
  | run_intent_analysis_node
  | combine_results_node
  | END
deriving DecidableEq, Repr

/-- `should_continue_after_fetch` (review_workflow.py 654-658): route to
"error" when the state carries a truthy `workflow_error`. -/
def should_continue_after_fetch (workflowError : Option String) : String :=
  if errTruthy workflowError then "error" else "continue"

/-- Modelled from the LangGraph activation semantics applied to the edges
declared in `create_review_workflow` (review_workflow.py 688-707): the
conditional edge from `fetch_pr_data` maps "continue" to `run_sast_analysis`
and "error" to `END`, and the ordinary edge
`add_edge("fetch_pr_data", "run_intent_analysis")` is followed
unconditionally whenever `fetch_pr_data` completes. -/
def nextNodes (workflowError : Option String) : WNode → List WNode
  | .fetch_pr_data_node =>
      (if should_continue_after_fetch workflowError = "error" then [.END]
       else [.run_sast_analysis_node])
      ++ [.run_intent_analysis_node]
  | .run_sast_analysis_node => [.combine_results_node]
  | .run_intent_analysis_node => [.combine_results_node]
  | .combine_results_node => [.END]
  | .END => []

/-- One superstep: activate all successors of the frontier, dropping the
`END` sink. -/
def stepFrontier (workflowError : Option String) (frontier : List WNode) : List WNode :=
  ((frontier.map (nextNodes workflowError)).flatten).filter (fun n => n ≠ .END)

/-- Nodes run within `n` supersteps starting from the given frontier. -/
def executedWithin (workflowError : Option String) : Nat → List WNode → List WNode
  | 0, frontier => frontier
  | n + 1, frontier =>
      frontier ++ executedWithin workflowError n (stepFrontier workflowError frontier)

/-- All nodes the compiled workflow executes for a run in which
`fetch_pr_data` produced the given `workflow_error` (the graph has depth at
most 4, so 4 supersteps cover every execution). -/
def executedNodes (workflowError : Option String) : List WNode :=
  executedWithin workflowError 4 [.fetch_pr_data_node]

/-! ### PR size limits and metrics (`configs/pr_size_limits.py`) -/

namespace DEFAULT_LIMITS

/-- `PRSizeLimits.max_files_for_full_analysis`. -/
def max_files_for_full_analysis : Nat := 150
/-- `PRSizeLimits.max_files_for_file_content`. -/
def max_files_for_file_content : Nat := 200
/-- `PRSizeLimits.max_files_absolute`. -/
def max_files_absolute : Nat := 250
/-- `PRSizeLimits.max_diff_size`. -/
def max_diff_size : Nat := 50000
/-- `PRSizeLimits.max_file_content_size`. -/
def max_file_content_size : Nat := 10000
/-- `PRSizeLimits.max_context_prompt_size`. -/
def max_context_prompt_size : Nat := 100000
/-- `PRSizeLimits.max_lines_changed`. -/
def max_lines_changed : Nat := 2000
/-- `PRSizeLimits.max_related_files`. -/
def max_related_files : Nat := 5
/-- `PRSizeLimits.max_related_file_size`. -/
def max_related_file_size : Nat := 5000
/-- `PRSizeLimits.max_diff_imported_files`. -/
def max_diff_imported_files : Nat := 10
/-- `PRSizeLimits.max_diff_imported_file_size`. -/
def max_diff_imported_file_size : Nat := 10000

end DEFAULT_LIMITS

/-- A file entry of the PR file list (the fields read by the modelled code:
`filename`, `additions`, `deletions`). -/
structure PRFile where
  filename : String
  additions : Nat
  deletions : Nat
deriving DecidableEq, Repr

/-- `PRSizeMetrics` (pr_size_limits.py 49-57). -/
structure PRSizeMetrics where
  file_count : Nat := 0
  total_additions : Nat := 0
  total_deletions : Nat := 0
  total_changes : Nat := 0
  diff_size_chars : Nat := 0
  largest_file_lines : Nat := 0
  estimated_tokens : Nat := 0
deriving DecidableEq, Repr

/-- `PRSizeMetrics.is_large` (pr_size_limits.py 60-67). -/
def PRSizeMetrics.is_large (m : PRSizeMetrics) : Bool :=
  m.file_count > DEFAULT_LIMITS.max_files_for_full_analysis
  || m.total_changes > DEFAULT_LIMITS.max_lines_changed
  || m.diff_size_chars > DEFAULT_LIMITS.max_diff_size

/-- `PRSizeMetrics.is_very_large` (pr_size_limits.py 69-76). -/
def PRSizeMetrics.is_very_large (m : PRSizeMetrics) : Bool :=
  m.file_count > DEFAULT_LIMITS.max_files_absolute
  || m.total_changes > DEFAULT_LIMITS.max_lines_changed * 2
  || m.diff_size_chars > DEFAULT_LIMITS.max_diff_size * 2

/-- `PRSizeMetrics.needs_diff_only_mode` (pr_size_limits.py 78-85). -/
def PRSizeMetrics.needs_diff_only_mode (m : PRSizeMetrics) : Bool :=
  m.file_count > DEFAULT_LIMITS.max_files_for_file_content

/-- `PRSizeMetrics.get_recommended_mode` (pr_size_limits.py 87-103):
diff-only is checked first, then summary, then truncated, else full. -/
def PRSizeMetrics.get_recommended_mode (m : PRSizeMetrics) : String :=
  if m.needs_diff_only_mode then "diff_only"
  else if m.is_very_large then "summary"
  else if m.is_large then "truncated"
  else "full"

/-- `calculate_pr_metrics` (pr_size_limits.py 106-138). -/
def calculate_pr_metrics (files : List PRFile) (diffContent : String) : PRSizeMetrics :=
  let totalAdd := (files.map (·.additions)).sum
  let totalDel := (files.map (·.deletions)).sum
  { file_count := files.length
    diff_size_chars := diffContent.length
    total_additions := totalAdd
    total_deletions := totalDel
    total_changes := totalAdd + totalDel
    largest_file_lines := (files.map (fun f => f.additions + f.deletions)).foldl max 0
    estimated_tokens := diffContent.length / 4 }

/-! ### Static-analysis stage (`review_workflow.py`, `run_sast_analysis`) -/

/-- A Semgrep finding (`SastFinding`, semgrep_client.py 17-35); the modelled
fields are the ones the workflow state stores (the `to_dict` conversion is
the identity on them). -/
structure Finding where
  rule_id : String
  severity : String
  message : String
  file : String
  line : Nat

/-- A symbol table as returned by `symbol_extractor.extract_from_files`:
file path to extracted symbol names. -/
def SymbolTable := List (String × List String)

/-- Collaborator functions `run_sast_analysis` calls whose outputs no claim
inspects: `format_findings_for_prompt`, `format_for_prompt` for symbols,
`_detect_languages`, and the measured stage duration. -/
structure SastDeps where
  formatFindings : List Finding → String
  formatSymbols : SymbolTable → String
  detectLanguages : List PRFile → List String
  durationMs : Nat

/-- A changed-file entry of the `extracted_context` state dict
(review_workflow.py 212-221). -/
structure StateCtxFile where
  path : String
  content : String
  content_for_prompt : String
  language : String
  size : Nat

/-- A related / newly-imported file entry of the `extracted_context` state
dict (review_workflow.py 222-230). -/
structure StateRelFile where
  path : String
  content : String
  language : String
  size : Nat

/-- The `repo_structure` entry of the `extracted_context` state dict
(review_workflow.py 231-235). -/
structure StateRepoStructure where
  tree_string : String
  languages : List String
  file_count : Nat

/-- The `extracted_context` dict stored in the workflow state.  In diff-only
mode the Python dict omits the `diff_imported_files` key; readers use
`.get(..., [])`, so it is modelled as the empty list there. -/
structure StateExtractedContext where
  changed_files : List StateCtxFile
  related_files : List StateRelFile
  diff_imported_files : List StateRelFile
  repo_structure : Option StateRepoStructure
  diff_only_mode : Bool

/-- Whether `run_sast_analysis` creates the symbol-extraction task
(review_workflow.py 270-305): requires a truthy `full_file_contents` dict
(some changed file with truthy path and content), an available extractor,
and not diff-only mode. -/
def sastSymbolTaskCreated (ctx : Option StateExtractedContext)
    (symbolAvailable : Bool) : Bool :=
  let diffOnly := match ctx with
    | some c => c.diff_only_mode
    | none => false
  let fullContentsTruthy := match ctx with
    | some c =>
        !diffOnly &&
        !(c.changed_files.filter (fun f => f.path != "" && f.content != "")).isEmpty
    | none => false
  fullContentsTruthy && symbolAvailable && !diffOnly

/-- The record `run_sast_analysis` writes to the workflow state. -/
structure SastNodeResult where
  sast_success : Bool
  sast_findings : List Finding
  sast_error : Option String
  sast_prompt_section : String
  sast_duration_ms : Nat
  languages_detected : List String
  symbol_table_prompt : String

/-- `run_sast_analysis` (review_workflow.py 261-378).  `semgrepOutcome` is
the awaited Semgrep task: `.error e` models the task raising (re-raised at
line 320 and caught by the outer handler), `.ok (success, findings, error)`
is `analyze_diff`'s returned tuple (a Semgrep timeout returns
`(False, [], "Semgrep analysis timed out after ...")`, it does not raise).
`symbolRunOutcome` is the symbol task's outcome when it was created:
`.error` models the extraction raising (logged, symbol table left empty). -/
def run_sast_analysis (deps : SastDeps) (files : List PRFile)
    (ctx : Option StateExtractedContext) (symbolAvailable : Bool)
    (semgrepOutcome : Except String (Bool × List Finding × Option String))
    (symbolRunOutcome : Except String SymbolTable) : SastNodeResult :=
  match semgrepOutcome with
  | .error e =>
      { sast_success := false
        sast_findings := []
        sast_error := some e
        sast_prompt_section := ""
        sast_duration_ms := deps.durationMs
        languages_detected := []
        symbol_table_prompt := "" }
  | .ok (success, findings, error) =>
      let symbol_table_prompt :=
        if sastSymbolTaskCreated ctx symbolAvailable then
          match symbolRunOutcome with
          | .ok tbl => deps.formatSymbols tbl
          | .error _ => ""
        else ""
      let languages := deps.detectLanguages files
      if success then
        { sast_success := true
          sast_findings := findings
          sast_error := none
          sast_prompt_section :=
            if findings.isEmpty then "" else deps.formatFindings findings
          sast_duration_ms := deps.durationMs
          languages_detected := languages
          symbol_table_prompt := symbol_table_prompt }
      else
        { sast_success := false
          sast_findings := []
          sast_error := error
          sast_prompt_section := ""
          sast_duration_ms := deps.durationMs
          languages_detected := languages
          symbol_table_prompt := symbol_table_prompt }

/-! ### Python string/slice primitives -/

/-- Python `s[:n]` for a non-negative `n` (character-wise, as Python slices
by code point). -/
def pyTake (s : String) (n : Nat) : String := String.mk (s.data.take n)

/-- Python `s[:n]` for a possibly negative `n`: a negative bound keeps all
but the last `-n` characters. -/
def pySlice (s : String) (n : Int) : String :=
  if 0 ≤ n then pyTake s n.toNat
  else pyTake s (s.length - (-n).toNat)

/-- The idiom `content[:limit] if len(content) > limit else content` used by
both prompt builders. -/
def pyTruncIf (content : String) (limit : Int) : String :=
  if (content.length : Int) > limit then pySlice content limit else content

/-! ### Context prompt assembly (`context_extractor.py`, `to_prompt_section`)

`ExtractedContext` is the dataclass produced by `extract_context`;
`RepoStructure.tree_string` models the output of
`to_tree_string(max_depth=3)` (its rendering is irrelevant to every claim).
-/

/-- `FileContext` (context_extractor.py 20-27). -/
structure FileContext where
  path : String
  content : String
  language : String
  size : Nat
  is_changed : Bool := true

/-- `RepoStructure` (context_extractor.py 30-37); `tree_string` models
`to_tree_string(max_depth=3)`. -/
structure RepoStructure where
  tree_string : String
  languages : List String
  file_count : Nat
  dir_count : Nat := 0

/-- `ExtractedContext` (context_extractor.py 66-75). -/
structure ExtractedContext where
  changed_files : List FileContext
  related_files : List FileContext
  repo_structure : Option RepoStructure
  import_graph : List (String × List String)
  diff_imported_files : List FileContext

/-- A file included in a prompt section: its rendered form is
`### {path}\n```{language}\n{content}\n```\n`, with the fallback variant
carrying a `... [truncated]` note (context_extractor.py 121, 127). -/
structure IncFile where
  path : String
  language : String
  content : String
  truncNote : Bool

/-- Rendered file section of `to_prompt_section`. -/
def IncFile.render (f : IncFile) : String :=
  "### " ++ f.path ++ "\n```" ++ f.language ++ "\n" ++ f.content
    ++ (if f.truncNote then "\n... [truncated]\n```\n" else "\n```\n")

/-- Rendered file section of `_build_intent_analysis_prompt` (same shape with
a leading newline, review_workflow.py 500). -/
def IncFile.renderNL (f : IncFile) : String := "\n" ++ f.render

/-- Total character count of a list of prompt parts. -/
def partsLen (l : List String) : Nat := (l.map String.length).sum

/-- Structure section of `to_prompt_section` and the `current_size` after it
(context_extractor.py 89-96). -/
def tpsStructParts (ctx : ExtractedContext) : List String × Nat :=
  match ctx.repo_structure with
  | some rs =>
      let structSection :=
        "## Repository Structure\n```\n" ++ pyTake rs.tree_string 2000
          ++ "\n```\n"
          ++ "Languages: " ++ String.intercalate ", " (rs.languages.take 10) ++ "\n"
      ([structSection], structSection.length)
  | none => ([], 0)

/-- `current_size` after the structure section. -/
def tpsStructLen (ctx : ExtractedContext) : Nat := (tpsStructParts ctx).2

/-- The three budget fractions computed after the structure section
(context_extractor.py 98-101): `int((max_total_size - current_size) * p)`
for p = 0.60, 0.25, 0.15; exact rational arithmetic with truncation toward
zero agrees with the Python float computation at these percentages. -/
def tpsBudgets (ctx : ExtractedContext) (maxTotal : Nat) : Int × Int × Int :=
  let c1 := tpsStructLen ctx
  (Int.tdiv (((maxTotal : Int) - c1) * 60) 100,
   Int.tdiv (((maxTotal : Int) - c1) * 25) 100,
   Int.tdiv (((maxTotal : Int) - c1) * 15) 100)

/-- Header lines of the changed-files section
(context_extractor.py 105-108). -/
def tpsChangedHeaders : List String :=
  ["\n## Changed Files (Context Reference)\n",
   "**IMPORTANT: This section provides the FULL file content for CONTEXT ONLY.**\n",
   "**You should ONLY review changes shown in the Git Diff section, NOT the entire file.**\n",
   "**Use this context to understand the surrounding code and validate changes, but do NOT report issues in code that wasn\x27t changed in this PR.**\n\n"]

/-- A regularly-included file: content truncated to the per-file limit
(context_extractor.py 118-121; the intent builder uses the same pattern at
review_workflow.py 497-500). -/
def incOf (limit : Int) (f : FileContext) : IncFile :=
  { path := f.path, language := f.language,
    content := pyTruncIf f.content limit, truncNote := false }

/-- A file included by the intent prompt builder (review_workflow.py
497-500, 514-516, 532-534): same truncation pattern, fields given
directly. -/
def ibIncOf (limit : Int) (path language content : String) : IncFile :=
  { path := path, language := language,
    content := pyTruncIf content limit, truncNote := false }

/-- The single fallback file: content cut to 3000 characters with a
truncation note (context_extractor.py 126-127). -/
def fallbackOf (f : FileContext) : IncFile :=
  { path := f.path, language := f.language,
    content := pyTake f.content 3000, truncNote := true }

/-- The changed-files loop (context_extractor.py 116-134): include a file if
the size guard passes; on the first guard failure with nothing yet included,
append one fallback file truncated to 3000 characters and stop; otherwise
stop.  Returns the included files, the final `current_size`, and
`files_included`. -/
def tpsChangedGo (maxTotal : Nat) (dib rb perFileBudget : Int) :
    List FileContext → Nat → Nat → (List IncFile × Nat × Nat)
  | [], current, included => ([], current, included)
  | f :: rest, current, included =>
      if (current : Int) + (incOf (min perFileBudget 10000) f).render.length
          > (maxTotal : Int) - dib - rb then
        if included = 0 then ([fallbackOf f], current, included + 1)
        else ([], current, included)
      else
        ((incOf (min perFileBudget 10000) f)
            :: (tpsChangedGo maxTotal dib rb perFileBudget rest
                  (current + (incOf (min perFileBudget 10000) f).render.length) (included + 1)).1,
         (tpsChangedGo maxTotal dib rb perFileBudget rest
            (current + (incOf (min perFileBudget 10000) f).render.length) (included + 1)).2)

/-- Changed-files phase of `to_prompt_section`
(context_extractor.py 104-137): returns its part strings, the included
files, and the updated `current_size`. -/
def tpsChangedPhase (ctx : ExtractedContext) (maxTotal : Nat)
    (changedBudget dib rb : Int) (current0 : Nat) :
    List String × List IncFile × Nat :=
  if ctx.changed_files.isEmpty then ([], [], current0)
  else
    let current := current0 + 300
    let maxFiles := min ctx.changed_files.length 10
    let perFileBudget := changedBudget.fdiv (max maxFiles 1 : Int)
    let r := tpsChangedGo maxTotal dib rb perFileBudget
      (ctx.changed_files.take maxFiles) current 0
    let tail :=
      if r.2.2 < ctx.changed_files.length then
        ["\n*... and " ++ toString (ctx.changed_files.length - r.2.2)
          ++ " more changed files*\n"]
      else []
    (tpsChangedHeaders ++ r.1.map IncFile.render ++ tail, r.1, r.2.1)

/-- The capped include loop shared by the newly-imported and related phases
(context_extractor.py 152-160, 173-181): include while the size guard
holds, else stop. -/
def tpsCapLoop (perFileLimit cap : Int) :
    List FileContext → Nat → (List IncFile × Nat)
  | [], current => ([], current)
  | f :: rest, current =>
      if (current : Int) + (incOf perFileLimit f).render.length > cap then
        ([], current)
      else
        ((incOf perFileLimit f)
            :: (tpsCapLoop perFileLimit cap rest
                  (current + (incOf perFileLimit f).render.length)).1,
         (tpsCapLoop perFileLimit cap rest
            (current + (incOf perFileLimit f).render.length)).2)

/-- Header lines of the newly-imported-files section
(context_extractor.py 142-145). -/
def tpsDiffImportedHeaders : List String :=
  ["\n## Newly Imported Files (Cross-File Analysis)\n",
   "**IMPORTANT: These files are NEWLY IMPORTED in this PR\x27s diff.**\n",
   "**Check if the usage of these imported components/functions is correct.**\n",
   "**Pay attention to: required props, function signatures, expected types.**\n\n"]

/-- Newly-imported-files phase of `to_prompt_section`
(context_extractor.py 139-160). -/
def tpsDiffImportedPhase (ctx : ExtractedContext) (maxTotal : Nat)
    (dib rb : Int) (current0 : Nat) : List String × List IncFile × Nat :=
  if !ctx.diff_imported_files.isEmpty && (maxTotal : Int) - current0 > 1000 then
    let current := current0 + 200
    let maxD := min ctx.diff_imported_files.length 5
    let perFileLimit := min (dib.fdiv (max maxD 1 : Int)) 8000
    let r := tpsCapLoop perFileLimit ((maxTotal : Int) - rb)
      (ctx.diff_imported_files.take maxD) current
    (tpsDiffImportedHeaders ++ r.1.map IncFile.render, r.1, r.2)
  else ([], [], current0)

/-- Related-files phase of `to_prompt_section`
(context_extractor.py 162-181): note the per-file limit is derived from the
budget remaining when the section starts, not from the 15% allocation. -/
def tpsRelatedPhase (ctx : ExtractedContext) (maxTotal : Nat)
    (current0 : Nat) : List String × List IncFile × Nat :=
  if !ctx.related_files.isEmpty && (maxTotal : Int) - current0 > 1000 then
    let current := current0 + 60
    let maxR := min ctx.related_files.length 3
    let perFileLimit := min (((maxTotal : Int) - current0).fdiv (max maxR 1 : Int)) 5000
    let r := tpsCapLoop perFileLimit (maxTotal : Int)
      (ctx.related_files.take maxR) current
    (["\n## Related Context Files\n",
      "*These files are referenced by the changed files.*\n"]
       ++ r.1.map IncFile.render, r.1, r.2)
  else ([], [], current0)

/-- Changed-files phase output at the budgets `to_prompt_section` computes. -/
def tpsChangedOut (ctx : ExtractedContext) (maxTotal : Nat) :
    List String × List IncFile × Nat :=
  tpsChangedPhase ctx maxTotal (tpsBudgets ctx maxTotal).1
    (tpsBudgets ctx maxTotal).2.1 (tpsBudgets ctx maxTotal).2.2 (tpsStructLen ctx)

/-- Newly-imported phase output in sequence. -/
def tpsDiffImportedOut (ctx : ExtractedContext) (maxTotal : Nat) :
    List String × List IncFile × Nat :=
  tpsDiffImportedPhase ctx maxTotal (tpsBudgets ctx maxTotal).2.1
    (tpsBudgets ctx maxTotal).2.2 (tpsChangedOut ctx maxTotal).2.2

/-- Related phase output in sequence. -/
def tpsRelatedOut (ctx : ExtractedContext) (maxTotal : Nat) :
    List String × List IncFile × Nat :=
  tpsRelatedPhase ctx maxTotal (tpsDiffImportedOut ctx maxTotal).2.2

/-- `ExtractedContext.to_prompt_section` (context_extractor.py 77-183):
the phase parts joined with `"\n".join`. -/
def to_prompt_section (ctx : ExtractedContext) (maxTotal : Nat) : String :=
  String.intercalate "\n"
    ((tpsStructParts ctx).1 ++ (tpsChangedOut ctx maxTotal).1
      ++ (tpsDiffImportedOut ctx maxTotal).1 ++ (tpsRelatedOut ctx maxTotal).1)

/-! ### Intent-analysis prompt (`review_workflow.py`,
`_build_intent_analysis_prompt`) -/

/-- The `pr_context` dict fields the intent prompt reads
(the `.get(..., 'unknown')` defaults fire only for missing keys, which the
fetch node always sets). -/
structure PRContextD where
  repo_name : String
  pr_number : Nat
  title : String
  author : String
  description : Option String
  head_branch : String
  base_branch : String

/-- Structure part of the intent prompt and `current_size` after it
(review_workflow.py 479-483). -/
def ibStructPart (ctx : StateExtractedContext) : List String × Nat :=
  match ctx.repo_structure with
  | some rs =>
      if rs.tree_string ≠ "" then
        let t := "\n## Repository Structure\n```\n" ++ pyTake rs.tree_string 1500
          ++ "\n```\n"
        ([t], t.length)
      else ([], 0)
  | none => ([], 0)

/-- Changed-files phase of the intent prompt (review_workflow.py 485-501):
budget is 40% of the remaining prompt budget, at most 5 files, per-file limit
`min(per_file_budget, 8000)`; no size guard inside the loop. -/
def ibChangedPhase (ctx : StateExtractedContext) (current0 : Nat) :
    List String × List IncFile × Nat :=
  if ctx.changed_files.isEmpty then ([], [], current0)
  else
    let filesBudget : Int := Int.tdiv (((60000 : Int) - current0) * 40) 100
    let current := current0 + 35
    let maxFiles := min ctx.changed_files.length 5
    let perFileBudget := filesBudget.fdiv (max maxFiles 1 : Int)
    let incs := (ctx.changed_files.take maxFiles).map (fun f =>
      ibIncOf (min perFileBudget 8000) f.path f.language f.content_for_prompt)
    let texts := incs.map IncFile.renderNL
    ("\n## Changed Files (Full Content)\n" :: texts, incs,
     current + partsLen texts)

/-- Related-files phase of the intent prompt (review_workflow.py 504-517). -/
def ibRelatedPhase (ctx : StateExtractedContext) (current0 : Nat) :
    List String × List IncFile × Nat :=
  if !ctx.related_files.isEmpty && (60000 : Int) - current0 - 20000 > 2000 then
    let current := current0 + 30
    let maxRelated := min ctx.related_files.length 2
    let perFileLimit := min (((60000 : Int) - current0 - 20000).fdiv (max maxRelated 1 : Int)) 3000
    let incs := (ctx.related_files.take maxRelated).map (fun f =>
      ibIncOf perFileLimit f.path f.language f.content)
    let texts := incs.map IncFile.renderNL
    ("\n## Related Context Files\n" :: texts, incs, current + partsLen texts)
  else ([], [], current0)

/-- Newly-imported-files phase of the intent prompt
(review_workflow.py 520-536). -/
def ibDiffImportedPhase (ctx : StateExtractedContext) (current0 : Nat) :
    List String × List IncFile × Nat :=
  if !ctx.diff_imported_files.isEmpty && (60000 : Int) - current0 - 15000 > 3000 then
    let current := current0 + 180
    let maxImports := min ctx.diff_imported_files.length 5
    let perFileLimit := min (((60000 : Int) - current0 - 15000).fdiv (max maxImports 1 : Int)) 6000
    let incs := (ctx.diff_imported_files.take maxImports).map (fun f =>
      ibIncOf perFileLimit f.path f.language f.content)
    let texts := incs.map IncFile.renderNL
    (["\n## Newly Imported Files (Cross-File Analysis)\n",
      "**IMPORTANT: These files are NEWLY IMPORTED in this PR.**\n",
      "**Check if the usage of these components/functions is correct (props, signatures, types).**\n\n"]
      ++ texts, incs, current + partsLen texts)
  else ([], [], current0)

/-- Changed-files phase at the position `_build_intent_analysis_prompt`
runs it (right after the structure part). -/
def ibChangedOut (ctx : StateExtractedContext) : List String × List IncFile × Nat :=
  ibChangedPhase ctx (ibStructPart ctx).2

/-- The fixed instruction tail of the intent prompt
(review_workflow.py 566-590). -/
def intentPromptTail : String :=
  "Analyze this PR and provide your assessment in the following JSON format:\n"
  ++ "\x7b\n"
  ++ "  \"purpose\": \"What is this PR trying to achieve? What problem is it solving?\",\n"
  ++ "  \"implementation_approach\": \"How is the solution being implemented? What patterns/techniques are used?\",\n"
  ++ "  \"key_changes\": [\n    \"List of main changes being made\"\n  ],\n"
  ++ "  \"potential_issues\": [\n    \"Issues identified from analyzing the intent vs implementation\"\n  ],\n"
  ++ "  \"missing_considerations\": [\n    \"Things that might be missing or overlooked\"\n  ],\n"
  ++ "  \"architectural_impact\": \"How does this change affect the overall system architecture?\",\n"
  ++ "  \"confidence\": 0.85\n"
  ++ "\x7d\n\n"
  ++ "Focus on:\n"
  ++ "1. Understanding the developer\x27s intent from the PR title, description, and code\n"
  ++ "2. Evaluating if the implementation matches the stated intent\n"
  ++ "3. Identifying gaps or inconsistencies\n"
  ++ "4. Considering broader architectural implications\n"
  ++ "5. Suggesting improvements based on intent understanding\n\n"
  ++ "Respond with ONLY the JSON object, no additional text."

/-- `_build_intent_analysis_prompt` (review_workflow.py 466-590). -/
def build_intent_analysis_prompt (pr : PRContextD)
    (ctx : Option StateExtractedContext) (diffContent : String) : String :=
  let phases : List String × Nat :=
    match ctx with
    | some c =>
        let s1 := ibStructPart c
        let s2 := ibChangedPhase c s1.2
        let s3 := ibRelatedPhase c s2.2.2
        let s4 := ibDiffImportedPhase c s3.2.2
        (s1.1 ++ s2.1 ++ s3.1 ++ s4.1, s4.2.2)
    | none => ([], 0)
  let contextSection := pyJoin phases.1
  let diffBudget : Int := max ((60000 : Int) - phases.2 - 2000) 10000
  let diff :=
    if (diffContent.length : Int) > diffBudget then
      pySlice diffContent diffBudget ++ "\n... [diff truncated]"
    else diffContent
  let description0 :=
    match pr.description with
    | some d => if d ≠ "" then d else "No description provided"
    | none => "No description provided"
  let description :=
    if description0.length > 1000 then pyTake description0 1000 ++ "... [truncated]"
    else description0
  "Analyze the following Pull Request to understand its intent and implementation quality.\n\n"
  ++ "## Pull Request Information\n"
  ++ "- Repository: " ++ pr.repo_name ++ "\n"
  ++ "- PR #" ++ toString pr.pr_number ++ "\n"
  ++ "- Title: " ++ pr.title ++ "\n"
  ++ "- Author: " ++ pr.author ++ "\n"
  ++ "- Description: " ++ description ++ "\n"
  ++ "- Branch: " ++ pr.head_branch ++ " → " ++ pr.base_branch ++ "\n\n"
  ++ contextSection ++ "\n\n"
  ++ "## Code Changes (Diff)\n```diff\n" ++ diff ++ "\n```\n\n"
  ++ intentPromptTail

/-- Concrete context for the C5 counterexample: one small changed file,
no structure, under a total budget of 100. -/
def c5Ctx : ExtractedContext :=
  { changed_files := [{ path := "a.py",
                        content := "def f(x):\n    return x + 1\n# padding 0123456789",
                        language := "python", size := 49 }]
    related_files := []
    repo_structure := none
    import_graph := []
    diff_imported_files := [] }

/-! ### JSON-from-text decoding (`utils/json_parser.py`)

`json.loads` is the Python standard library; it is passed in as a total
decoder `loads : String → Option JVal` (`none` models `JSONDecodeError`).
The regex substitutions and searches of the source are embedded as direct
character scans with the same match semantics; the scanning helpers carry a
fuel argument that the wrappers instantiate with the input length plus one,
which every run stays under because each step consumes at least one
character. -/

/-- Match of `"line"\s*:\s*(\d+)\s*-\s*(\d+)` at the head of the list:
returns the two digit groups and the rest after the match. -/
def matchLineRange (l : List Char) : Option (List Char × List Char × List Char) :=
  if l.take 6 = ['"', 'l', 'i', 'n', 'e', '"'] then
    match (l.drop 6).dropWhile Char.isWhitespace with
    | ':' :: r2 =>
        let r3 := r2.dropWhile Char.isWhitespace
        let d1 := r3.takeWhile Char.isDigit
        if d1.isEmpty then none
        else
          match (r3.dropWhile Char.isDigit).dropWhile Char.isWhitespace with
          | '-' :: r5 =>
              let r6 := r5.dropWhile Char.isWhitespace
              let d2 := r6.takeWhile Char.isDigit
              if d2.isEmpty then none
              else some (d1, d2, r6.dropWhile Char.isDigit)
          | _ => none
    | _ => none
  else none

/-- `re.sub(r'"line"\s*:\s*(\d+)\s*-\s*(\d+)', r'"line": "\1-\2"', text)`:
left-to-right scan, replacing each match and continuing after it. -/
def subLineRangeAux : Nat → List Char → List Char
  | 0, l => l
  | _ + 1, [] => []
  | fuel + 1, c :: rest =>
      match matchLineRange (c :: rest) with
      | some (d1, d2, after) =>
          (['"', 'l', 'i', 'n', 'e', '"', ':', ' ', '"'] ++ d1 ++ ['-'] ++ d2 ++ ['"'])
            ++ subLineRangeAux fuel after
      | none => c :: subLineRangeAux fuel rest

/-- `re.sub(r',\s*CLOSE', 'CLOSE', text)` for a closing brace or bracket. -/
def subCommaClose (close : Char) : Nat → List Char → List Char
  | 0, l => l
  | _ + 1, [] => []
  | fuel + 1, c :: rest =>
      if c = ',' then
        match rest.dropWhile Char.isWhitespace with
        | d :: r2 =>
            if d = close then close :: subCommaClose close fuel r2
            else c :: subCommaClose close fuel rest
        | [] => c :: subCommaClose close fuel rest
      else c :: subCommaClose close fuel rest

/-- `fix_json_issues` (json_parser.py 12-30): quote bare line ranges, then
drop trailing commas before closing braces and brackets. -/
def fix_json_issues (s : String) : String :=
  let l1 := subLineRangeAux (s.data.length + 1) s.data
  let l2 := subCommaClose '}' (l1.length + 1) l1
  let l3 := subCommaClose ']' (l2.length + 1) l2
  String.mk l3

/-- First index at which `pat` occurs as a contiguous sublist. -/
def findSub (pat : List Char) : List Char → Option Nat
  | [] => if pat.isEmpty then some 0 else none
  | l@(_ :: rest) =>
      if pat.isPrefixOf l then some 0
      else (findSub pat rest).map (· + 1)

/-- Strip leading and trailing whitespace (the `\s*` groups around the
regex captures). -/
def trimWs (l : List Char) : List Char :=
  ((l.dropWhile Char.isWhitespace).reverse.dropWhile Char.isWhitespace).reverse

/-- First match group of `re.search(r'```json\s*(.*?)\s*```', text, DOTALL)`:
the text between the first ` ```json ` and the next ` ``` `, trimmed. -/
def extractCodeBlockJson (l : List Char) : Option (List Char) :=
  match findSub ("```json".data) l with
  | none => none
  | some i =>
      match findSub ("```".data) (l.drop (i + 7)) with
      | none => none
      | some j => some (trimWs ((l.drop (i + 7)).take j))

/-- Scan for the minimal `\x7b.*?\x7d` group followed by `\s*`+back-fence,
given the characters after the opening brace; `acc` holds the group body
consumed so far, reversed. -/
def braceGroupEnd : List Char → List Char → Option (List Char)
  | _, [] => none
  | acc, c :: rest =>
      if c = '}' ∧ ("```".data).isPrefixOf (rest.dropWhile Char.isWhitespace) then
        some ('{' :: (acc.reverse ++ ['}']))
      else braceGroupEnd (c :: acc) rest

/-- First match group of `re.search(r'```\s*(\x7b.*?\x7d)\s*```', text,
DOTALL)`: try each fence occurrence in order; at each, skip whitespace,
require an opening brace, and find the minimal closing brace followed by a
whitespace-separated fence. -/
def extractCodeBlockBrace : Nat → List Char → Option (List Char)
  | 0, _ => none
  | fuel + 1, l =>
      match findSub ("```".data) l with
      | none => none
      | some i =>
          match (l.drop (i + 3)).dropWhile Char.isWhitespace with
          | '{' :: afterBrace =>
              match braceGroupEnd [] afterBrace with
              | some g => some g
              | none => extractCodeBlockBrace fuel (l.drop (i + 1))
          | _ => extractCodeBlockBrace fuel (l.drop (i + 1))

/-- The balanced-brace scan of `extract_json_from_text`
(json_parser.py 61-80): track the brace depth, remember the start of the
outermost open brace, and on each depth-zero close try to decode the
candidate; on decode failure keep scanning. -/
def braceScan (loads : String → Option JVal) :
    List Char → Int → Option (List Char) → Option JVal
  | [], _, _ => none
  | c :: rest, count, acc =>
      if c = '{' then
        if count = 0 then braceScan loads rest (count + 1) (some [c])
        else braceScan loads rest (count + 1) (acc.map (c :: ·))
      else if c = '}' then
        if count - 1 = 0 ∧ acc.isSome then
          match loads (fix_json_issues (String.mk (((acc.map (c :: ·)).getD []).reverse))) with
          | some v => some v
          | none => braceScan loads rest (count - 1) (acc.map (c :: ·))
        else braceScan loads rest (count - 1) (acc.map (c :: ·))
      else braceScan loads rest count (acc.map (c :: ·))

/-- `extract_json_from_text` (json_parser.py 33-84): fix the text, try the
` ```json ` code block, then the brace-delimited code block, then the
balanced-brace scan; a successful decode returns immediately (even a falsy
value), otherwise `None`. -/
def extract_json_from_text (loads : String → Option JVal) (s : String) : Option JVal :=
  match (extractCodeBlockJson (fix_json_issues s).data).bind
      (fun g => loads (fix_json_issues (String.mk g))) with
  | some v => some v
  | none =>
      match (extractCodeBlockBrace ((fix_json_issues s).data.length + 1)
          (fix_json_issues s).data).bind
          (fun g => loads (fix_json_issues (String.mk g))) with
      | some v => some v
      | none => braceScan loads (fix_json_issues s).data 0 none

/-- The error payload returned when every fallback fails
(json_parser.py 113-118); `pyRepr` models Python `repr` of the raw text. -/
def errDict (text : String) : JVal :=
  .obj [("error", .str ("Invalid JSON response -- raw output: " ++ pyRepr (.str text)))]

/-- `parse_json_with_fallbacks` (json_parser.py 87-118): fix the text and
try a whole-text decode, then the extraction chain (whose result must be
truthy), else report failure with an error dict.  Total by construction:
every input string yields a `(flag, value)` pair.  The `errorContext`
argument only affects logging in the source and is unused here. -/
def parse_json_with_fallbacks (loads : String → Option JVal) (text : String)
    (_errorContext : String) : Bool × JVal :=
  match loads (fix_json_issues text) with
  | some v => (true, v)
  | none =>
      match extract_json_from_text loads text with
      | some v => if v.truthy then (true, v) else (false, errDict text)
      | none => (false, errDict text)

/-! ### Intent-analysis node (`review_workflow.py`, `run_intent_analysis`) -/

/-- The record `run_intent_analysis` writes to the workflow state;
`intent_analysis` is `\x7b\x7d` (the empty dict) on failure. -/
structure IntentNodeResult where
  intent_success : Bool
  intent_analysis : JVal
  intent_error : Option String
  intent_duration_ms : Nat

/-- `run_intent_analysis` (review_workflow.py 381-449).  `callOutcome` is
the awaited `call_with_retry`: `.error e` models the node body raising
(unknown provider, client construction failure — caught at line 441),
`.ok (success, responseText, error)` is the client's returned tuple. -/
def run_intent_analysis (loads : String → Option JVal)
    (callOutcome : Except String (Bool × String × Option String))
    (durationMs : Nat) : IntentNodeResult :=
  match callOutcome with
  | .error e =>
      { intent_success := false, intent_analysis := .obj []
        intent_error := some e, intent_duration_ms := durationMs }
  | .ok (success, responseText, error) =>
      if success then
        match parse_json_with_fallbacks loads responseText "Intent analysis" with
        | (true, parsed) =>
            { intent_success := true, intent_analysis := parsed
              intent_error := none, intent_duration_ms := durationMs }
        | (false, _) =>
            { intent_success := false, intent_analysis := .obj []
              intent_error := some "Failed to parse intent analysis response"
              intent_duration_ms := durationMs }
      else
        { intent_success := false, intent_analysis := .obj []
          intent_error := error, intent_duration_ms := durationMs }

/-- The gate in `start_review` after the workflow returns
(review.py 258-263): the route returns early (skipping the synthesis loop)
exactly when the state carries a truthy `workflow_error`; an intent-stage
failure never sets `workflow_error`. -/
def startReviewProceedsToSynthesis (workflowError : Option String) : Bool :=
  !errTruthy workflowError

/-- A decoder that always fails, for concrete instantiation. -/
def loadsNone : String → Option JVal := fun _ => none

/-- A decoder succeeding exactly on the two-character text `\x7b\x7d` (the
empty JSON object), for concrete instantiation. -/
def loadsObj : String → Option JVal :=
  fun s => if s = "\x7b\x7d" then some (.obj []) else none

/-- A workflow state downstream of an intent-analysis decode failure. -/
def c9State : CombineState :=
  { context_prompt_section := "## Analysis Mode\nDiff-only analysis (3 files)\n"
    sast_success := true
    sast_prompt_section := "FINDINGS"
    sast_error := none
    sast_duration_ms := 10
    symbol_table_prompt := ""
    intent_success := false
    intent_analysis := []
    intent_error := some "Failed to parse intent analysis response"
    intent_duration_ms := 3 }

/-! ### Context assembly node (`review_workflow.py`, `fetch_pr_data`) -/

/-- The review data returned by `get_pr_review_data` that the node's size
logic reads (PR metadata passes through untouched and is omitted). -/
structure ReviewData where
  files : List PRFile
  diff : String

/-- The context-related slice of the record `fetch_pr_data` returns. -/
structure FetchNodeResult where
  diff_content : String
  files : List PRFile
  extracted_context : StateExtractedContext
  context_prompt_section : String

/-- `fetch_pr_data` (review_workflow.py 109-258), successful path.
`extractorResult` is the outcome `extract_context` would produce if invoked,
paired with the number of `get_file_content` calls it performs — the only
place per-file content is fetched.  The diff-truncation helpers
(`smart_diff_truncate`, `truncate_content`, `prioritize_files`) are passed as
parameters since no claim depends on their outputs.  In diff-only mode
(review_workflow.py 144-170) the node returns before `extract_context` is
ever invoked, so zero content fetches happen and the stored context has
empty file lists with `diff_only_mode = True`. -/
def fetch_pr_data (rd : ReviewData)
    (extractorResult : ExtractedContext × Nat)
    (smartDiffTruncate : String → Nat → List PRFile → String)
    (truncateContent : String → Nat → String → String)
    (prioritizeFiles : List PRFile → Nat → List PRFile) :
    FetchNodeResult × Nat :=
  let prMetrics := calculate_pr_metrics rd.files rd.diff
  let processingMode := prMetrics.get_recommended_mode
  if processingMode = "diff_only" then
    ({ diff_content := smartDiffTruncate rd.diff (DEFAULT_LIMITS.max_diff_size * 2) rd.files
       files := rd.files
       extracted_context :=
         { changed_files := []
           related_files := []
           diff_imported_files := []
           repo_structure := none
           diff_only_mode := true }
       context_prompt_section :=
         "## Analysis Mode\nDiff-only analysis (" ++ toString prMetrics.file_count
           ++ " files - full content fetch skipped for performance)\n" },
     0)
  else
    let filesToProcess :=
      if processingMode = "summary" then
        prioritizeFiles rd.files DEFAULT_LIMITS.max_files_for_full_analysis
      else rd.files
    let diffContent :=
      if processingMode = "summary" then
        smartDiffTruncate rd.diff DEFAULT_LIMITS.max_diff_size filesToProcess
      else if processingMode = "truncated" then
        truncateContent rd.diff DEFAULT_LIMITS.max_diff_size "\n... [diff truncated due to size]"
      else rd.diff
    let extracted := extractorResult.1
    ({ diff_content := diffContent
       files := filesToProcess
       extracted_context :=
         { changed_files :=
             (extracted.changed_files.take DEFAULT_LIMITS.max_files_for_full_analysis).map
               (fun f => { path := f.path, content := f.content,
                           content_for_prompt := pyTake f.content DEFAULT_LIMITS.max_file_content_size,
                           language := f.language, size := f.size })
           related_files :=
             (extracted.related_files.take DEFAULT_LIMITS.max_related_files).map
               (fun f => { path := f.path,
                           content := pyTake f.content DEFAULT_LIMITS.max_related_file_size,
                           language := f.language, size := f.size })
           diff_imported_files :=
             (extracted.diff_imported_files.take DEFAULT_LIMITS.max_diff_imported_files).map
               (fun f => { path := f.path,
                           content := pyTake f.content DEFAULT_LIMITS.max_diff_imported_file_size,
                           language := f.language, size := f.size })
           repo_structure := extracted.repo_structure.map
             (fun r => { tree_string := pyTake r.tree_string 2000,
                         languages := r.languages.take 10,
                         file_count := r.file_count })
           diff_only_mode := false }
       context_prompt_section := to_prompt_section extracted DEFAULT_LIMITS.max_context_prompt_size },
     extractorResult.2)

/-- Concrete review data with 201 files — above
`max_files_for_file_content = 200`. -/
def c4ReviewData : ReviewData :=
  { files := List.replicate 201 { filename := "f.py", additions := 1, deletions := 0 }
    diff := "diff --git a/f.py b/f.py\n+x = 1\n" }

/-- A hypothetical extractor outcome claiming 7 content fetches — used to
show the diff-only path never consults it. -/
def c4Extractor : ExtractedContext × Nat :=
  ({ changed_files := [], related_files := [], repo_structure := none,
     import_graph := [], diff_imported_files := [] }, 7)

/-- Concrete state context for the intent-prompt side of C5. -/
def c5IntentCtx : StateExtractedContext :=
  { changed_files := [{ path := "b.py", content := "print(1)\n",
                        content_for_prompt := "print(1)\n", language := "python", size := 9 }]
    related_files := []
    diff_imported_files := []
    repo_structure := none
    diff_only_mode := false }

/-- A fatal fetch outcome: `fetch_pr_data` catches the exception and stores
`workflow_error` (review_workflow.py 254-258). -/
def c3FatalError : Option String := some "Failed to fetch PR data: 404 Not Found"

/-- Concrete collaborator bundle for the SAST stage. -/
def sastDepsEx : SastDeps :=
  { formatFindings := fun _ => "FINDINGS"
    formatSymbols := fun _ => "SYMTAB"
    detectLanguages := fun _ => ["python"]
    durationMs := 120000 }

/-- Concrete extracted context with one changed file having full content. -/
def ctxEx8 : StateExtractedContext :=
  { changed_files := [{ path := "a.py", content := "x = 1\n",
                        content_for_prompt := "x = 1\n", language := "python", size := 6 }]
    related_files := []
    diff_imported_files := []
    repo_structure := none
    diff_only_mode := false }

/-- Concrete extracted symbol table. -/
def symTabEx : SymbolTable := [("a.py", ["x"])]

/-- A workflow state whose SAST stage failed with a recorded error. -/
def c2StateB : CombineState :=
  { context_prompt_section := "CTX"
    sast_success := false
    sast_prompt_section := ""
    sast_error := some "Semgrep analysis timed out after 120 seconds"
    sast_duration_ms := 120000
    symbol_table_prompt := "SYM"
    intent_success := true
    intent_analysis := [("purpose", .str "refactor")]
    intent_error := none
    intent_duration_ms := 7 }

end DiffCOT

namespace DiffCOT

/-- Helper: `(s ++ t).data = s.data ++ t.data`. -/
theorem strData_append (s t : String) : (s ++ t).data = s.data ++ t.data := by
  cases s; cases t; rfl

/-- Invariant of the retry loop, by induction on the remaining attempt budget:
the final attempt count lies between `attempt` and `attempt + remaining`, at
least one call is made when budget remains, every attempt strictly before the
last found zero issues, and the loop stopped either on a finding or on
exhaustion. -/
theorem synthesisLoop_ok_spec (issues : Nat → Nat) :
    ∀ remaining attempt,
      attempt ≤ callsMade (synthesisLoop (fun n => Except.ok (issues n)) attempt remaining)
      ∧ callsMade (synthesisLoop (fun n => Except.ok (issues n)) attempt remaining) ≤ attempt + remaining
      ∧ (0 < remaining → attempt + 1 ≤ callsMade (synthesisLoop (fun n => Except.ok (issues n)) attempt remaining))
      ∧ (∀ k, attempt < k → k < callsMade (synthesisLoop (fun n => Except.ok (issues n)) attempt remaining) → issues k = 0)
      ∧ (0 < issues (callsMade (synthesisLoop (fun n => Except.ok (issues n)) attempt remaining))
          ∨ callsMade (synthesisLoop (fun n => Except.ok (issues n)) attempt remaining) = attempt + remaining) := by
  intro remaining
  induction remaining with
  | zero =>
      intro attempt
      simp only [synthesisLoop, callsMade]
      refine ⟨Nat.le_refl _, by omega, by omega, ?_, Or.inr rfl⟩
      intro k h1 h2; omega
  | succ r ih =>
      intro attempt
      by_cases hpos : 0 < issues (attempt + 1)
      · have hred : synthesisLoop (fun n => Except.ok (issues n)) attempt (r + 1)
            = .done (attempt + 1) := by
          simp [synthesisLoop, hpos]
        rw [hred]
        simp only [callsMade]
        refine ⟨Nat.le_succ attempt, by omega, fun _ => Nat.le_refl _, ?_, Or.inl hpos⟩
        intro k hk1 hk2; omega
      · have hz : issues (attempt + 1) = 0 := Nat.eq_zero_of_not_pos hpos
        have hred : synthesisLoop (fun n => Except.ok (issues n)) attempt (r + 1)
            = synthesisLoop (fun n => Except.ok (issues n)) (attempt + 1) r := by
          simp [synthesisLoop, hpos]
        rw [hred]
        obtain ⟨h1, h2, _, h4, h5⟩ := ih (attempt + 1)
        refine ⟨by omega, by omega, fun _ => h1, ?_, ?_⟩
        · intro k hk1 hk2
          rcases Nat.lt_or_ge k (attempt + 2) with hk | hk
          · have : k = attempt + 1 := by omega
            simpa [this] using hz
          · exact h4 k (by omega) hk2
        · rcases h5 with h | h
          · exact Or.inl h
          · exact Or.inr (by omega)

/-- C1: when every synthesis attempt's model call succeeds, the retry loop in
`start_review` never makes more calls than the ceiling
(`max_retries` when `retry_until_issues_found`, else 1), every attempt strictly
before the stopping one had an empty issues list (so the loop stops at the
first attempt with a non-empty issues list), the loop ends either on a finding
or exactly at the ceiling, and with a ceiling of 1 exactly one call is made. -/
theorem c1_synthesis_loop_retry_ceiling (issues : Nat → Nat)
    (retryUntilIssuesFound : Bool) (maxRetries : Nat) :
    callsMade (runSynthesisLoop (fun n => Except.ok (issues n)) retryUntilIssuesFound maxRetries)
        ≤ maxAttemptsOf retryUntilIssuesFound maxRetries
    ∧ (∀ k, 0 < k →
        k < callsMade (runSynthesisLoop (fun n => Except.ok (issues n)) retryUntilIssuesFound maxRetries) →
        issues k = 0)
    ∧ (0 < issues (callsMade (runSynthesisLoop (fun n => Except.ok (issues n)) retryUntilIssuesFound maxRetries))
        ∨ callsMade (runSynthesisLoop (fun n => Except.ok (issues n)) retryUntilIssuesFound maxRetries)
            = maxAttemptsOf retryUntilIssuesFound maxRetries)
    ∧ (maxAttemptsOf retryUntilIssuesFound maxRetries = 1 →
        callsMade (runSynthesisLoop (fun n => Except.ok (issues n)) retryUntilIssuesFound maxRetries) = 1) := by
  obtain ⟨h1, h2, h3, h4, h5⟩ :=
    synthesisLoop_ok_spec issues (maxAttemptsOf retryUntilIssuesFound maxRetries) 0
  unfold runSynthesisLoop
  refine ⟨by omega, ?_, ?_, ?_⟩
  · intro k hk; exact h4 k hk
  · rcases h5 with h | h
    · exact Or.inl h
    · exact Or.inr (by omega)
  · intro hmax
    have := h3 (by omega)
    omega

/-- Witness for C1 at a concrete schedule: with `retry_until_issues_found` and
`max_retries = 5`, the loop on `issuesEx` (first finding on attempt 3) makes
3 calls, attempt 2 found nothing, and with the retry flag off exactly one call
is made. -/
theorem c1_synthesis_loop_retry_ceiling_witness :
    issuesEx 2 = 0
    ∧ callsMade (runSynthesisLoop (fun n => Except.ok (issuesEx n)) true 5) ≤ maxAttemptsOf true 5
    ∧ callsMade (runSynthesisLoop (fun n => Except.ok (issuesEx n)) false 5) = 1 := by
  have h := c1_synthesis_loop_retry_ceiling issuesEx true 5
  have h' := c1_synthesis_loop_retry_ceiling issuesEx false 5
  exact ⟨h.2.1 2 (by decide) (by decide), h.1, h'.2.2.2 (by decide)⟩

/-- C6: the combined prompt built by `_perform_ai_review` contains the
escalation instruction block exactly when the attempt number exceeds 1
(assuming the incoming combined prompt does not itself contain the hint's
marker text). -/
theorem c6_escalation_iff_retry (attempt : Nat) (combinedPrompt : String)
    (hbase : ¬ containsStr escMarker combinedPrompt) :
    containsStr escMarker (promptWithRetryHint attempt combinedPrompt) ↔ 1 < attempt := by
  constructor
  · intro hocc
    by_contra hle
    have heq : promptWithRetryHint attempt combinedPrompt = combinedPrompt := by
      simp [promptWithRetryHint, hle]
    rw [heq] at hocc
    exact hbase hocc
  · intro hgt
    rcases eq_or_ne combinedPrompt "" with he | hne
    · have heq : promptWithRetryHint attempt combinedPrompt = retryHint attempt := by
        simp [promptWithRetryHint, hgt, he]
      rw [heq]
      exact ⟨[], (toString attempt).data ++ escTail.data, by simp [retryHint, strData_append]⟩
    · have heq : promptWithRetryHint attempt combinedPrompt
          = retryHint attempt ++ combinedPrompt := by
        simp [promptWithRetryHint, hgt, hne]
      rw [heq]
      exact ⟨[], (toString attempt).data ++ escTail.data ++ combinedPrompt.data,
        by simp [retryHint, strData_append]⟩

/-- Witness for C6: attempt 2 on a marker-free base prompt carries the
escalation block; attempt 1 does not. -/
theorem c6_escalation_iff_retry_witness :
    containsStr escMarker (promptWithRetryHint 2 "base prompt")
    ∧ ¬ containsStr escMarker (promptWithRetryHint 1 "base prompt") := by
  have h2 := c6_escalation_iff_retry 2 "base prompt" (by decide)
  have h1 := c6_escalation_iff_retry 1 "base prompt" (by decide)
  exact ⟨h2.mpr (by decide), fun hc => absurd (h1.mp hc) (by decide)⟩

/-- Counterexample to C7 as stated: the escalation blocks of attempts 2 and 3
are not character-for-character identical — the interpolated attempt number
differs. -/
theorem c7_counterexample : 1 < 2 ∧ 1 < 3 ∧ retryHint 2 ≠ retryHint 3 := by
  refine ⟨by decide, by decide, by decide⟩

/-- C7 amended: the escalation block is fixed except for the interpolated
attempt number — every attempt's hint is the same marker text, then the
decimal attempt number, then the same fixed checklist tail. -/
theorem c7_hint_fixed_up_to_attempt_number (m n : Nat) :
    retryHint m = escMarker ++ toString m ++ escTail
    ∧ retryHint n = escMarker ++ toString n ++ escTail :=
  ⟨rfl, rfl⟩

/-- Helper: `"" ++ s = s`. -/
theorem strEmpty_append (s : String) : "" ++ s = s := by
  cases s; rfl

/-- Helper: strings with the same character data are equal. -/
theorem strExt {s t : String} (h : s.data = t.data) : s = t := by
  cases s; cases t; exact congrArg String.mk h

/-- Helper: string append is associative. -/
theorem strAppend_assoc (a b c : String) : a ++ b ++ c = a ++ (b ++ c) :=
  strExt (by simp [strData_append])

/-- Helper: `pyJoin` distributes over list append. -/
theorem pyJoin_append (a b : List String) : pyJoin (a ++ b) = pyJoin a ++ pyJoin b := by
  induction a with
  | nil => simp [pyJoin, strEmpty_append]
  | cons x xs ih => simp [pyJoin, ih, strAppend_assoc]

set_option maxRecDepth 8000 in
/-- Counterexample to C2 as stated: a reachable state where SAST ran and
succeeded with zero findings (empty prompt section, no error).  The combined
prompt then has no SAST section and no SAST warning line at all — the section
is omitted, not replaced by a warning. -/
theorem c2_counterexample :
    c2State.sast_success = true ∧ c2State.sast_error = none
    ∧ sastSections c2State = []
    ∧ ¬ containsStr "SAST" (combine_analysis_results c2State) := by
  refine ⟨rfl, rfl, rfl, by decide⟩

/-- C2 amended: the combined document concatenates the context, SAST,
symbol-table and intent parts in that fixed order; a stage's results block
appears when it succeeded with non-empty output; a one-line warning appears
only when it did not succeed with output and a non-empty error is recorded;
otherwise (success with empty output, empty symbol table, empty context) the
stage's part is omitted entirely. -/
theorem c2_combined_document_sections (s : CombineState) :
    combine_analysis_results s
      = pyJoin (contextSections s) ++ pyJoin (sastSections s)
        ++ pyJoin (symbolSections s) ++ pyJoin (intentSections s)
    ∧ (s.sast_success = true → s.sast_prompt_section ≠ "" →
        sastSections s = sastResultBlock s)
    ∧ (¬(s.sast_success = true ∧ s.sast_prompt_section ≠ "") →
        errTruthy s.sast_error = true → sastSections s = [sastWarningLine s])
    ∧ (¬(s.sast_success = true ∧ s.sast_prompt_section ≠ "") →
        errTruthy s.sast_error = false → sastSections s = [])
    ∧ (s.intent_success = true → s.intent_analysis ≠ [] →
        intentSections s = intentBody s.intent_analysis s.intent_duration_ms)
    ∧ (¬(s.intent_success = true ∧ s.intent_analysis ≠ []) →
        errTruthy s.intent_error = true → intentSections s = [intentWarningLine s])
    ∧ (¬(s.intent_success = true ∧ s.intent_analysis ≠ []) →
        errTruthy s.intent_error = false → intentSections s = [])
    ∧ (symbolSections s = [] ↔ s.symbol_table_prompt = "")
    ∧ (contextSections s = [] ↔ s.context_prompt_section = "") := by
  refine ⟨?_, ?_, ?_, ?_, ?_, ?_, ?_, ?_, ?_⟩
  · unfold combine_analysis_results
    rw [pyJoin_append, pyJoin_append, pyJoin_append]
  · intro h1 h2
    simp [sastSections, h1, h2]
  · intro h1 h2
    cases hb : (s.sast_success && s.sast_prompt_section != "") with
    | false => simp [sastSections, hb, h2]
    | true =>
        exfalso
        simp only [Bool.and_eq_true, bne_iff_ne, ne_eq] at hb
        exact h1 hb
  · intro h1 h2
    cases hb : (s.sast_success && s.sast_prompt_section != "") with
    | false => simp [sastSections, hb, h2]
    | true =>
        exfalso
        simp only [Bool.and_eq_true, bne_iff_ne, ne_eq] at hb
        exact h1 hb
  · intro h1 h2
    simp [intentSections, h1, h2]
  · intro h1 h2
    cases hb : (s.intent_success && !s.intent_analysis.isEmpty) with
    | false => simp [intentSections, hb, h2]
    | true =>
        exfalso
        simp only [Bool.and_eq_true, Bool.not_eq_true'] at hb
        refine h1 ⟨hb.1, ?_⟩
        intro hnil
        rw [hnil] at hb
        simp at hb
  · intro h1 h2
    cases hb : (s.intent_success && !s.intent_analysis.isEmpty) with
    | false => simp [intentSections, hb, h2]
    | true =>
        exfalso
        simp only [Bool.and_eq_true, Bool.not_eq_true'] at hb
        refine h1 ⟨hb.1, ?_⟩
        intro hnil
        rw [hnil] at hb
        simp at hb
  · constructor
    · intro h
      by_contra hne
      simp [symbolSections, hne] at h
    · intro h
      simp [symbolSections, h]
  · constructor
    · intro h
      by_contra hne
      simp [contextSections, hne] at h
    · intro h
      simp [contextSections, h]

/-- Witness for the amended C2 at a concrete state: SAST failed with a
recorded error, so its part is exactly the one-line warning; the intent stage
succeeded with a non-empty analysis, so its part is the results block. -/
theorem c2_combined_document_sections_witness :
    sastSections c2StateB = [sastWarningLine c2StateB]
    ∧ intentSections c2StateB
        = intentBody c2StateB.intent_analysis c2StateB.intent_duration_ms := by
  have h := c2_combined_document_sections c2StateB
  exact ⟨h.2.2.1 (by decide) (by decide),
         h.2.2.2.2.1 rfl (by simp [c2StateB])⟩

/-- C3 evaluated at the failing input: when `fetch_pr_data` stores a fatal
`workflow_error`, the conditional edge routes to `END` and
`run_sast_analysis` never runs, but the unconditional
`add_edge("fetch_pr_data", "run_intent_analysis")` still activates
`run_intent_analysis` (and then `combine_results`) — contradicting the claim
(and the code's own comment that both edges are followed only on success). -/
theorem c3_intent_runs_despite_fatal_fetch_error :
    WNode.run_intent_analysis_node ∈ executedNodes c3FatalError
    ∧ WNode.run_sast_analysis_node ∉ executedNodes c3FatalError
    ∧ WNode.combine_results_node ∈ executedNodes c3FatalError := by
  decide

/-- C8: sub-task failures in the static-analysis stage are independent.
When the analyzer invocation fails with an error tuple (e.g. a timeout)
while symbol extraction succeeds, the stage record has `sast_success = false`
with the analyzer's error message and the formatted symbol table from the
successful extraction; when extraction raises while the analyzer succeeds,
the symbol table is empty while the analyzer's findings are kept.  (The
stage always returns a record: `run_sast_analysis` is total by
construction.) -/
theorem c8_sast_subtask_failure_independence (deps : SastDeps) (files : List PRFile)
    (ctx : Option StateExtractedContext) (avail : Bool)
    (errMsg : String) (tbl : SymbolTable) (fs : List Finding) (e : String)
    (hcreated : sastSymbolTaskCreated ctx avail = true) :
    (run_sast_analysis deps files ctx avail (.ok (false, [], some errMsg)) (.ok tbl)).sast_success = false
    ∧ (run_sast_analysis deps files ctx avail (.ok (false, [], some errMsg)) (.ok tbl)).sast_error = some errMsg
    ∧ (run_sast_analysis deps files ctx avail (.ok (false, [], some errMsg)) (.ok tbl)).symbol_table_prompt
        = deps.formatSymbols tbl
    ∧ (run_sast_analysis deps files ctx avail (.ok (true, fs, none)) (.error e)).sast_success = true
    ∧ (run_sast_analysis deps files ctx avail (.ok (true, fs, none)) (.error e)).sast_findings = fs
    ∧ (run_sast_analysis deps files ctx avail (.ok (true, fs, none)) (.error e)).symbol_table_prompt = "" := by
  refine ⟨rfl, rfl, ?_, rfl, rfl, ?_⟩
  · simp [run_sast_analysis, hcreated]
  · simp [run_sast_analysis, hcreated]

/-- C4: whenever the file count exceeds `max_files_for_file_content = 200`,
the mode selector picks `diff_only` first (regardless of every other
metric), and `fetch_pr_data` performs zero per-file content fetches and
stores an extracted context with empty `changed_files` and `related_files`
and `diff_only_mode = True`. -/
theorem c4_diff_only_no_content_fetch (rd : ReviewData)
    (ext : ExtractedContext × Nat)
    (sdt : String → Nat → List PRFile → String)
    (tc : String → Nat → String → String)
    (pf : List PRFile → Nat → List PRFile)
    (h : rd.files.length > DEFAULT_LIMITS.max_files_for_file_content) :
    (calculate_pr_metrics rd.files rd.diff).get_recommended_mode = "diff_only"
    ∧ (fetch_pr_data rd ext sdt tc pf).2 = 0
    ∧ (fetch_pr_data rd ext sdt tc pf).1.extracted_context.changed_files = []
    ∧ (fetch_pr_data rd ext sdt tc pf).1.extracted_context.related_files = []
    ∧ (fetch_pr_data rd ext sdt tc pf).1.extracted_context.diff_only_mode = true := by
  have hfc : (calculate_pr_metrics rd.files rd.diff).file_count = rd.files.length := rfl
  have hneeds : (calculate_pr_metrics rd.files rd.diff).needs_diff_only_mode = true := by
    unfold PRSizeMetrics.needs_diff_only_mode
    rw [hfc]
    exact decide_eq_true h
  have hmode : (calculate_pr_metrics rd.files rd.diff).get_recommended_mode = "diff_only" := by
    unfold PRSizeMetrics.get_recommended_mode
    rw [hneeds]
    rfl
  refine ⟨hmode, ?_, ?_, ?_, ?_⟩ <;> simp [fetch_pr_data, hmode]

set_option maxRecDepth 8000 in
/-- Witness for C4: a 201-file change set takes the diff-only path with zero
content fetches even though the hypothetical extractor outcome would report
7 fetches. -/
theorem c4_diff_only_no_content_fetch_witness :
    (fetch_pr_data c4ReviewData c4Extractor (fun d _ _ => d) (fun d _ _ => d)
        (fun fs _ => fs)).2 = 0
    ∧ (fetch_pr_data c4ReviewData c4Extractor (fun d _ _ => d) (fun d _ _ => d)
        (fun fs _ => fs)).1.extracted_context.diff_only_mode = true
    ∧ c4Extractor.2 = 7 := by
  have h := c4_diff_only_no_content_fetch c4ReviewData c4Extractor
    (fun d _ _ => d) (fun d _ _ => d) (fun fs _ => fs) (by decide)
  exact ⟨h.2.1, h.2.2.2.2, rfl⟩

/-- Helper: length of a Python prefix slice. -/
theorem pyTake_length (s : String) (n : Nat) : (pyTake s n).length = min n s.length := by
  show (s.data.take n).length = min n s.data.length
  exact List.length_take n s.data

/-- Helper: the `content[:limit] if len > limit else content` idiom never
exceeds a non-negative limit. -/
theorem pyTruncIf_length_le (c : String) (l : Int) (hl : 0 ≤ l) :
    (pyTruncIf c l).length ≤ l.toNat := by
  unfold pyTruncIf
  by_cases hgt : (c.length : Int) > l
  · rw [if_pos hgt]
    unfold pySlice
    rw [if_pos hl, pyTake_length]
    omega
  · rw [if_neg hgt]
    omega

/-- Helper: truncating `Int` division of casts is `Nat` division. -/
theorem tdiv_cast (m n : Nat) : Int.tdiv (m : Int) (n : Int) = ((m / n : Nat) : Int) :=
  (Int.ofNat_tdiv m n).symm

/-- Helper: floor division agrees on casts of naturals. -/
theorem fdiv_cast (m n : Nat) : Int.fdiv (m : Int) (n : Int) = ((m / n : Nat) : Int) := by
  rw [Int.fdiv_eq_tdiv (by positivity) (by positivity), tdiv_cast]

/-- Helper: the capped include loop keeps every content within the per-file
limit, so the included contents total at most `files × limit`. -/
theorem tpsCapLoop_contents_le (limit cap : Int) (hl : 0 ≤ limit) :
    ∀ (files : List FileContext) (current : Nat),
      (((tpsCapLoop limit cap files current).1.map (fun i => i.content.length)).sum
        ≤ files.length * limit.toNat)
      ∧ ∀ i ∈ (tpsCapLoop limit cap files current).1, i.content.length ≤ limit.toNat := by
  intro files
  induction files with
  | nil =>
      intro current
      simp [tpsCapLoop]
  | cons f rest ih =>
      intro current
      by_cases hg : (current : Int) + (incOf limit f).render.length > cap
      · rw [tpsCapLoop, if_pos hg]
        exact ⟨by simp, by simp⟩
      · rw [tpsCapLoop, if_neg hg]
        obtain ⟨ih1, ih2⟩ := ih (current + (incOf limit f).render.length)
        have hf : (incOf limit f).content.length ≤ limit.toNat :=
          pyTruncIf_length_le f.content limit hl
        constructor
        · simp only [List.map_cons, List.sum_cons, List.length_cons]
          calc (incOf limit f).content.length
                + (((tpsCapLoop limit cap rest
                      (current + (incOf limit f).render.length)).1.map
                        (fun i => i.content.length)).sum)
              ≤ limit.toNat + rest.length * limit.toNat := Nat.add_le_add hf ih1
            _ = (rest.length + 1) * limit.toNat := by ring
        · intro i hi
          rcases List.mem_cons.mp hi with h | h
          · subst h; exact hf
          · exact ih2 i h

/-- Helper: in the changed-files loop, regularly-included contents respect
the per-file limit and any fallback content is at most 3000 characters. -/
theorem tpsChangedGo_bounds (maxTotal : Nat) (dib rb pfb : Int)
    (hpfb : 0 ≤ min pfb 10000) :
    ∀ (files : List FileContext) (current included : Nat),
      ((((tpsChangedGo maxTotal dib rb pfb files current included).1.filter
          (fun i => !i.truncNote)).map (fun i => i.content.length)).sum
        ≤ files.length * (min pfb 10000).toNat)
      ∧ ∀ i ∈ (tpsChangedGo maxTotal dib rb pfb files current included).1,
          i.truncNote = true → i.content.length ≤ 3000 := by
  intro files
  induction files with
  | nil =>
      intro current included
      simp [tpsChangedGo]
  | cons f rest ih =>
      intro current included
      by_cases hg : (current : Int) + (incOf (min pfb 10000) f).render.length
          > (maxTotal : Int) - dib - rb
      · rw [tpsChangedGo, if_pos hg]
        by_cases hinc : included = 0
        · rw [if_pos hinc]
          constructor
          · simp [fallbackOf]
          · intro i hi _
            rcases List.mem_singleton.mp hi with h
            subst h
            have := pyTake_length f.content 3000
            simp only [fallbackOf] at *
            omega
        · rw [if_neg hinc]
          exact ⟨by simp, by simp⟩
      · rw [tpsChangedGo, if_neg hg]
        obtain ⟨ih1, ih2⟩ := ih
          (current + (incOf (min pfb 10000) f).render.length) (included + 1)
        have hf : (incOf (min pfb 10000) f).content.length ≤ (min pfb 10000).toNat :=
          pyTruncIf_length_le f.content (min pfb 10000) hpfb
        constructor
        · have hkeep : (!(incOf (min pfb 10000) f).truncNote) = true := rfl
          simp only [List.filter_cons, hkeep, if_pos, List.map_cons, List.sum_cons,
            List.length_cons]
          calc (incOf (min pfb 10000) f).content.length
                + _
              ≤ (min pfb 10000).toNat + rest.length * (min pfb 10000).toNat :=
                Nat.add_le_add hf ih1
            _ = (rest.length + 1) * (min pfb 10000).toNat := by ring
        · intro i hi htr
          rcases List.mem_cons.mp hi with h | h
          · subst h; exact absurd htr (by simp [incOf])
          · exact ih2 i h htr

/-- Helper: summed content length of a mapped include list. -/
theorem sum_contents_le {α : Type} (l : List α) (g : α → IncFile) (b : Nat)
    (hb : ∀ x ∈ l, (g x).content.length ≤ b) :
    ((l.map g).map (fun i => i.content.length)).sum ≤ l.length * b := by
  induction l with
  | nil => simp
  | cons x xs ih =>
      simp only [List.map_cons, List.sum_cons, List.length_cons]
      have h1 := hb x (List.mem_cons_self x xs)
      have h2 := ih (fun y hy => hb y (List.mem_cons_of_mem x hy))
      calc (g x).content.length + ((xs.map g).map (fun i => i.content.length)).sum
          ≤ b + xs.length * b := Nat.add_le_add h1 h2
        _ = (xs.length + 1) * b := by ring

/-- Helper: `int(a * p%)` of a cast natural is the natural computation. -/
theorem tdiv100_cast (a : Nat) : Int.tdiv ((a : Int)) 100 = ((a / 100 : Nat) : Int) := by
  simpa using tdiv_cast a 100

/-- Helper: the three percentage budgets are casts of natural numbers when
the structure section fits the total budget. -/
theorem tpsBudgets_cast (ctx : ExtractedContext) (B : Nat)
    (h : tpsStructLen ctx ≤ B) :
    (tpsBudgets ctx B).1 = (((B - tpsStructLen ctx) * 60 / 100 : Nat) : Int)
    ∧ (tpsBudgets ctx B).2.1 = (((B - tpsStructLen ctx) * 25 / 100 : Nat) : Int)
    ∧ (tpsBudgets ctx B).2.2 = (((B - tpsStructLen ctx) * 15 / 100 : Nat) : Int) := by
  have key : ∀ k : Nat,
      Int.tdiv (((B : Int) - (tpsStructLen ctx : Int)) * (k : Int)) 100
        = (((B - tpsStructLen ctx) * k / 100 : Nat) : Int) := by
    intro k
    have hc : (B : Int) - (tpsStructLen ctx : Int) = ((B - tpsStructLen ctx : Nat) : Int) := by
      omega
    rw [hc,
      show ((B - tpsStructLen ctx : Nat) : Int) * (k : Int)
          = (((B - tpsStructLen ctx) * k : Nat) : Int) by push_cast; ring]
    exact tdiv100_cast _
  unfold tpsBudgets
  refine ⟨?_, ?_, ?_⟩
  · simpa using key 60
  · simpa using key 25
  · simpa using key 15

/-- Helper: a nonempty list's capped count `min len k` is at least 1 for
`k ≥ 1`. -/
theorem min_len_pos {α : Type} (l : List α) (k : Nat) (hl : l.isEmpty = false)
    (hk : 1 ≤ k) : 1 ≤ min l.length k := by
  have : l ≠ [] := by
    intro hnil; rw [hnil] at hl; simp at hl
  have : 0 < l.length := List.length_pos.mpr this
  omega

/-- Helper: the regularly-included changed-file contents of
`to_prompt_section` total at most the 60% allocation, provided the structure
section fits the budget. -/
theorem tpsChanged_contents_le (ctx : ExtractedContext) (B : Nat)
    (hstruct : tpsStructLen ctx ≤ B) :
    (((tpsChangedOut ctx B).2.1.filter (fun i => !i.truncNote)).map
        (fun i => i.content.length)).sum ≤ (tpsBudgets ctx B).1.toNat := by
  obtain ⟨hb1, _, _⟩ := tpsBudgets_cast ctx B hstruct
  unfold tpsChangedOut tpsChangedPhase
  by_cases hemp : ctx.changed_files.isEmpty
  · simp [hemp]
  · rw [if_neg (by simpa using hemp)]
    simp only []
    set M := min ctx.changed_files.length 10 with hM
    have hM1 : 1 ≤ M := min_len_pos _ _ (by simpa using hemp) (by norm_num)
    set CB := (B - tpsStructLen ctx) * 60 / 100 with hCB
    have hmax : (max (M : Int) 1) = (M : Int) := max_eq_left (by exact_mod_cast hM1)
    have hpfb : (tpsBudgets ctx B).1.fdiv (max (M : Int) 1) = ((CB / M : Nat) : Int) := by
      rw [hb1, hmax]
      exact fdiv_cast CB M
    rw [hpfb]
    have hnn : (0 : Int) ≤ min ((CB / M : Nat) : Int) 10000 :=
      le_min (by positivity) (by norm_num)
    obtain ⟨hsum, _⟩ := tpsChangedGo_bounds B (tpsBudgets ctx B).2.1
      (tpsBudgets ctx B).2.2 ((CB / M : Nat) : Int) hnn
      (ctx.changed_files.take M) (tpsStructLen ctx + 300) 0
    refine le_trans hsum ?_
    have hlen : (ctx.changed_files.take M).length = M := by
      rw [List.length_take]
      exact Nat.min_eq_left (le_min_iff.mp (le_refl M)).1
    have htn : (min ((CB / M : Nat) : Int) 10000).toNat ≤ CB / M := by
      simp
    have hCBtoNat : (tpsBudgets ctx B).1.toNat = CB := by
      rw [hb1]; simp
    rw [hlen, hCBtoNat]
    calc M * (min ((CB / M : Nat) : Int) 10000).toNat
        ≤ M * (CB / M) := Nat.mul_le_mul_left M htn
      _ = CB / M * M := Nat.mul_comm _ _
      _ ≤ CB := Nat.div_mul_le_self CB M

/-- Helper: the newly-imported-file contents of `to_prompt_section` total at
most the 25% allocation, provided the structure section fits the budget. -/
theorem tpsDiffImported_contents_le (ctx : ExtractedContext) (B : Nat)
    (hstruct : tpsStructLen ctx ≤ B) :
    ((tpsDiffImportedOut ctx B).2.1.map (fun i => i.content.length)).sum
      ≤ (tpsBudgets ctx B).2.1.toNat := by
  obtain ⟨_, hb2, _⟩ := tpsBudgets_cast ctx B hstruct
  set DB := (B - tpsStructLen ctx) * 25 / 100 with hDB
  unfold tpsDiffImportedOut tpsDiffImportedPhase
  split
  case isTrue hcond =>
    simp only []
    have h12 := hcond
    simp only [Bool.and_eq_true] at h12
    obtain ⟨h1, _⟩ := h12
    have hne : ctx.diff_imported_files.isEmpty = false := by
      simpa using h1
    set M := min ctx.diff_imported_files.length 5 with hM
    have hM1 : 1 ≤ M := min_len_pos _ _ hne (by norm_num)
    have hmax : (max (M : Int) 1) = (M : Int) := max_eq_left (by exact_mod_cast hM1)
    have hlim : min ((tpsBudgets ctx B).2.1.fdiv (max (M : Int) 1)) 8000
        = min ((DB / M : Nat) : Int) 8000 := by
      rw [hb2, hmax, fdiv_cast]
    rw [hlim]
    have hnn : (0 : Int) ≤ min ((DB / M : Nat) : Int) 8000 :=
      le_min (by positivity) (by norm_num)
    obtain ⟨hsum, _⟩ := tpsCapLoop_contents_le (min ((DB / M : Nat) : Int) 8000)
      ((B : Int) - (tpsBudgets ctx B).2.2) hnn
      (ctx.diff_imported_files.take M) ((tpsChangedOut ctx B).2.2 + 200)
    refine le_trans hsum ?_
    have hlen : (ctx.diff_imported_files.take M).length = M := by
      rw [List.length_take]
      exact Nat.min_eq_left (le_min_iff.mp (le_refl M)).1
    have htn : (min ((DB / M : Nat) : Int) 8000).toNat ≤ DB / M := by
      simp
    have hDBtoNat : (tpsBudgets ctx B).2.1.toNat = DB := by
      rw [hb2]; simp
    rw [hlen, hDBtoNat]
    calc M * (min ((DB / M : Nat) : Int) 8000).toNat
        ≤ M * (DB / M) := Nat.mul_le_mul_left M htn
      _ = DB / M * M := Nat.mul_comm _ _
      _ ≤ DB := Nat.div_mul_le_self DB M
  case isFalse hcond =>
    simp

/-- Helper: every related-file content included by `to_prompt_section` is at
most 5000 characters (the per-file cap); the aggregate is governed by the
budget remaining when the section starts, not by the 15% allocation. -/
theorem tpsRelated_each_le (ctx : ExtractedContext) (B : Nat) :
    ∀ i ∈ (tpsRelatedOut ctx B).2.1, i.content.length ≤ 5000 := by
  unfold tpsRelatedOut tpsRelatedPhase
  split
  case isTrue hcond =>
    intro i hi
    simp only [] at hi
    have h12 := hcond
    simp only [Bool.and_eq_true] at h12
    obtain ⟨_, h2⟩ := h12
    have hrem : ((B : Int) - (tpsDiffImportedOut ctx B).2.2) > 1000 :=
      of_decide_eq_true h2
    set R := (B : Int) - (tpsDiffImportedOut ctx B).2.2 with hR
    set M := min ctx.related_files.length 3 with hM
    have hfd : 0 ≤ R.fdiv (max (M : Int) 1) :=
      Int.fdiv_nonneg (by omega) (le_trans zero_le_one (le_max_right _ _))
    have hl : 0 ≤ min (R.fdiv (max (M : Int) 1)) 5000 := le_min hfd (by norm_num)
    obtain ⟨_, heach⟩ := tpsCapLoop_contents_le (min (R.fdiv (max (M : Int) 1)) 5000)
      (B : Int) hl (ctx.related_files.take M) ((tpsDiffImportedOut ctx B).2.2 + 60)
    have hle := heach i hi
    have htn := Int.toNat_le_toNat (min_le_right (R.fdiv (max (M : Int) 1)) 5000)
    simp at htn
    omega
  case isFalse hcond =>
    intro i hi
    simp at hi

/-- Helper: the intent prompt's structure part is at most 1600 characters
(29-character header, tree capped at 1500, 5-character fence). -/
theorem ibStructPart_le (ictx : StateExtractedContext) : (ibStructPart ictx).2 ≤ 1600 := by
  cases hrs : ictx.repo_structure with
  | none => simp [ibStructPart, hrs]
  | some rs =>
      by_cases ht : rs.tree_string ≠ ""
      · have heq : (ibStructPart ictx).2
            = ("\n## Repository Structure\n```\n" ++ pyTake rs.tree_string 1500
                ++ "\n```\n").length := by
          simp [ibStructPart, hrs, ht]
        rw [heq]
        simp only [String.length_append, pyTake_length]
        have h1 : ("\n## Repository Structure\n```\n").length = 29 := by decide
        have h2 : ("\n```\n").length = 5 := by decide
        omega
      · have heq : (ibStructPart ictx).2 = 0 := by
          simp [ibStructPart, hrs, ht]
        omega

/-- Helper: the intent prompt's changed-file contents total at most the 40%
allocation of the remaining budget. -/
theorem ibChanged_contents_le (ictx : StateExtractedContext) :
    ((ibChangedOut ictx).2.1.map (fun i => i.content.length)).sum
      ≤ (Int.tdiv (((60000 : Int) - (ibStructPart ictx).2) * 40) 100).toNat := by
  have hc0 := ibStructPart_le ictx
  have hcast : (60000 : Int) - (ibStructPart ictx).2
      = ((60000 - (ibStructPart ictx).2 : Nat) : Int) := by omega
  set FB := (60000 - (ibStructPart ictx).2) * 40 / 100 with hFB
  have hfb : Int.tdiv (((60000 : Int) - (ibStructPart ictx).2) * 40) 100
      = ((FB : Nat) : Int) := by
    rw [hcast,
      show ((60000 - (ibStructPart ictx).2 : Nat) : Int) * (40 : Int)
          = (((60000 - (ibStructPart ictx).2) * 40 : Nat) : Int) by push_cast; ring]
    exact tdiv100_cast _
  unfold ibChangedOut ibChangedPhase
  by_cases hemp : ictx.changed_files.isEmpty
  · simp [hemp, hfb]
  · rw [if_neg (by simpa using hemp)]
    simp only []
    rw [hfb]
    set M := min ictx.changed_files.length 5 with hM
    have hM1 : 1 ≤ M := min_len_pos _ _ (by simpa using hemp) (by norm_num)
    have hmax : (max (M : Int) 1) = (M : Int) := max_eq_left (by exact_mod_cast hM1)
    have hpfb : (((FB : Nat) : Int)).fdiv (max (M : Int) 1) = ((FB / M : Nat) : Int) := by
      rw [hmax]; exact fdiv_cast FB M
    rw [hpfb]
    have hnn : (0 : Int) ≤ min ((FB / M : Nat) : Int) 8000 :=
      le_min (by positivity) (by norm_num)
    have hb : ∀ f ∈ ictx.changed_files.take M,
        (ibIncOf (min ((FB / M : Nat) : Int) 8000) f.path f.language f.content_for_prompt).content.length
          ≤ (min ((FB / M : Nat) : Int) 8000).toNat := by
      intro f _
      exact pyTruncIf_length_le f.content_for_prompt _ hnn
    have hsum := sum_contents_le (ictx.changed_files.take M)
      (fun f => ibIncOf (min ((FB / M : Nat) : Int) 8000) f.path f.language f.content_for_prompt)
      ((min ((FB / M : Nat) : Int) 8000).toNat) hb
    refine le_trans hsum ?_
    have hlen : (ictx.changed_files.take M).length = M := by
      rw [List.length_take]
      exact Nat.min_eq_left (le_min_iff.mp (le_refl M)).1
    have htn : (min ((FB / M : Nat) : Int) 8000).toNat ≤ FB / M := by
      simp
    rw [hlen]
    have : ((FB : Nat) : Int).toNat = FB := by simp
    rw [this]
    calc M * (min ((FB / M : Nat) : Int) 8000).toNat
        ≤ M * (FB / M) := Nat.mul_le_mul_left M htn
      _ = FB / M * M := Nat.mul_comm _ _
      _ ≤ FB := Nat.div_mul_le_self FB M

/-- Helper: any fallback file included by the changed-files phase carries at
most 3000 characters of content. -/
theorem tpsChanged_fallback_le (ctx : ExtractedContext) (B : Nat)
    (hstruct : tpsStructLen ctx ≤ B) :
    ∀ i ∈ (tpsChangedOut ctx B).2.1, i.truncNote = true → i.content.length ≤ 3000 := by
  obtain ⟨hb1, _, _⟩ := tpsBudgets_cast ctx B hstruct
  unfold tpsChangedOut tpsChangedPhase
  by_cases hemp : ctx.changed_files.isEmpty
  · intro i hi
    simp [hemp] at hi
  · rw [if_neg (by simpa using hemp)]
    simp only []
    set M := min ctx.changed_files.length 10 with hM
    have hM1 : 1 ≤ M := min_len_pos _ _ (by simpa using hemp) (by norm_num)
    have hmax : (max (M : Int) 1) = (M : Int) := max_eq_left (by exact_mod_cast hM1)
    set CB := (B - tpsStructLen ctx) * 60 / 100 with hCB
    have hpfb : (tpsBudgets ctx B).1.fdiv (max (M : Int) 1) = ((CB / M : Nat) : Int) := by
      rw [hb1, hmax]
      exact fdiv_cast CB M
    rw [hpfb]
    have hnn : (0 : Int) ≤ min ((CB / M : Nat) : Int) 10000 :=
      le_min (by positivity) (by norm_num)
    exact (tpsChangedGo_bounds B _ _ _ hnn
      (ctx.changed_files.take M) (tpsStructLen ctx + 300) 0).2

set_option maxRecDepth 8000 in
/-- Counterexample to C5 as stated: under a total budget of 100 with no
structure section, the rendered changed-files section (headers plus the
budget-bypassing single-file fallback) is far larger than 60% of the
remaining budget. -/
theorem c5_counterexample :
    ¬ ((partsLen (tpsChangedOut c5Ctx 100).1 : Int) ≤ (tpsBudgets c5Ctx 100).1) := by
  decide

/-- C5 amended: the percentage budgets cap the truncated file *contents*, not
the rendered sections (headers, paths and code fences add overhead, the
single-file fallback bypasses the budget entirely, and the related-files
per-file limit derives from the budget remaining at its turn rather than the
15% allocation).  Provided the structure section fits the total budget: the
regularly-included changed-file contents of `to_prompt_section` total at most
the 60% allocation and any fallback file carries at most 3000 characters;
newly-imported contents total at most the 25% allocation; each related-file
content is at most 5000 characters; and the intent prompt's changed-file
contents total at most 40% of its remaining budget. -/
theorem c5_contents_within_budgets (ctx : ExtractedContext) (B : Nat)
    (ictx : StateExtractedContext) (hstruct : tpsStructLen ctx ≤ B) :
    ((((tpsChangedOut ctx B).2.1.filter (fun i => !i.truncNote)).map
        (fun i => i.content.length)).sum ≤ (tpsBudgets ctx B).1.toNat)
    ∧ (∀ i ∈ (tpsChangedOut ctx B).2.1, i.truncNote = true → i.content.length ≤ 3000)
    ∧ (((tpsDiffImportedOut ctx B).2.1.map (fun i => i.content.length)).sum
        ≤ (tpsBudgets ctx B).2.1.toNat)
    ∧ (∀ i ∈ (tpsRelatedOut ctx B).2.1, i.content.length ≤ 5000)
    ∧ (((ibChangedOut ictx).2.1.map (fun i => i.content.length)).sum
        ≤ (Int.tdiv (((60000 : Int) - (ibStructPart ictx).2) * 40) 100).toNat) :=
  ⟨tpsChanged_contents_le ctx B hstruct,
   tpsChanged_fallback_le ctx B hstruct,
   tpsDiffImported_contents_le ctx B hstruct,
   tpsRelated_each_le ctx B,
   ibChanged_contents_le ictx⟩

set_option maxRecDepth 8000 in
/-- Witness for the amended C5 at concrete inputs. -/
theorem c5_contents_within_budgets_witness :
    tpsStructLen c5Ctx ≤ 100
    ∧ ((((tpsChangedOut c5Ctx 100).2.1.filter (fun i => !i.truncNote)).map
        (fun i => i.content.length)).sum ≤ (tpsBudgets c5Ctx 100).1.toNat)
    ∧ (((ibChangedOut c5IntentCtx).2.1.map (fun i => i.content.length)).sum
        ≤ (Int.tdiv (((60000 : Int) - (ibStructPart c5IntentCtx).2) * 40) 100).toNat) := by
  have h := c5_contents_within_budgets c5Ctx 100 c5IntentCtx (by decide)
  exact ⟨by decide, h.1, h.2.2.2.2⟩

/-- Helper: a value produced by the balanced-brace scan comes from a
successful decode of some candidate string. -/
theorem braceScan_some_decoded (loads : String → Option JVal) :
    ∀ (l : List Char) (count : Int) (acc : Option (List Char)) (v : JVal),
      braceScan loads l count acc = some v → ∃ s, loads s = some v := by
  intro l
  induction l with
  | nil =>
      intro count acc v h
      simp [braceScan] at h
  | cons c rest ih =>
      intro count acc v h
      rw [braceScan] at h
      by_cases h1 : c = '{'
      · rw [if_pos h1] at h
        by_cases h2 : count = 0
        · rw [if_pos h2] at h; exact ih _ _ _ h
        · rw [if_neg h2] at h; exact ih _ _ _ h
      · rw [if_neg h1] at h
        by_cases h2 : c = '}'
        · rw [if_pos h2] at h
          by_cases h3 : count - 1 = 0 ∧ acc.isSome
          · rw [if_pos h3] at h
            cases hl : loads (fix_json_issues
                (String.mk (((acc.map (c :: ·)).getD []).reverse))) with
            | some w =>
                rw [hl] at h
                simp at h
                exact ⟨_, by rw [hl, h]⟩
            | none =>
                rw [hl] at h
                exact ih _ _ _ h
          · rw [if_neg h3] at h; exact ih _ _ _ h
        · rw [if_neg h2] at h; exact ih _ _ _ h

/-- Helper: any value `extract_json_from_text` returns comes from a
successful decode of some candidate string. -/
theorem extract_some_decoded (loads : String → Option JVal) (s : String) (v : JVal)
    (h : extract_json_from_text loads s = some v) : ∃ t, loads t = some v := by
  unfold extract_json_from_text at h
  cases h1 : (extractCodeBlockJson (fix_json_issues s).data).bind
      (fun g => loads (fix_json_issues (String.mk g))) with
  | some w =>
      rw [h1] at h
      simp at h
      obtain ⟨g, _, hl⟩ := Option.bind_eq_some.mp h1
      exact ⟨_, by rw [hl, h]⟩
  | none =>
      rw [h1] at h
      cases h2 : (extractCodeBlockBrace ((fix_json_issues s).data.length + 1)
          (fix_json_issues s).data).bind
          (fun g => loads (fix_json_issues (String.mk g))) with
      | some w =>
          rw [h2] at h
          simp at h
          obtain ⟨g, _, hl⟩ := Option.bind_eq_some.mp h2
          exact ⟨_, by rw [hl, h]⟩
      | none =>
          rw [h2] at h
          exact braceScan_some_decoded loads _ _ _ _ h

/-- C9: the intent decode applies the fallback chain in order — whole-text
decode first, then the JSON code-block extraction, then the balanced-brace
scan; if every fallback fails, `parse_json_with_fallbacks` returns
`(False, error-dict)` rather than raising, `run_intent_analysis` turns that
into a failure record with the decode error message, the combiner renders
that record as the one-line intent-failure placeholder, and the synthesis
loop still runs (the route returns early only on a truthy
`workflow_error`). -/
theorem c9_intent_decode_fallback_chain :
    (∀ (loads : String → Option JVal) (text : String) (v : JVal),
        loads (fix_json_issues text) = some v →
        parse_json_with_fallbacks loads text "Intent analysis" = (true, v))
    ∧ (∀ (loads : String → Option JVal) (text : String),
        loads (fix_json_issues text) = none →
        extract_json_from_text loads text = none →
        parse_json_with_fallbacks loads text "Intent analysis" = (false, errDict text))
    ∧ (∀ (loads : String → Option JVal) (text : String) (g : List Char) (v : JVal),
        extractCodeBlockJson (fix_json_issues text).data = some g →
        loads (fix_json_issues (String.mk g)) = some v →
        extract_json_from_text loads text = some v)
    ∧ (∀ (loads : String → Option JVal) (text : String),
        (extractCodeBlockJson (fix_json_issues text).data).bind
            (fun g => loads (fix_json_issues (String.mk g))) = none →
        (extractCodeBlockBrace ((fix_json_issues text).data.length + 1)
            (fix_json_issues text).data).bind
            (fun g => loads (fix_json_issues (String.mk g))) = none →
        extract_json_from_text loads text
          = braceScan loads (fix_json_issues text).data 0 none)
    ∧ (∀ (loads : String → Option JVal) (resp : String) (dur : Nat),
        (parse_json_with_fallbacks loads resp "Intent analysis").1 = false →
        run_intent_analysis loads (.ok (true, resp, none)) dur
          = { intent_success := false, intent_analysis := .obj []
              intent_error := some "Failed to parse intent analysis response"
              intent_duration_ms := dur })
    ∧ (∀ s : CombineState, s.intent_success = false →
        s.intent_error = some "Failed to parse intent analysis response" →
        intentSections s = [intentWarningLine s])
    ∧ (∀ (issues : Nat → Nat) (maxRetries : Nat), 1 ≤ maxRetries →
        startReviewProceedsToSynthesis none = true
        ∧ 1 ≤ callsMade (runSynthesisLoop (fun n => Except.ok (issues n)) true maxRetries)) := by
  refine ⟨?_, ?_, ?_, ?_, ?_, ?_, ?_⟩
  · intro loads text v h
    unfold parse_json_with_fallbacks
    rw [h]
  · intro loads text h1 h2
    unfold parse_json_with_fallbacks
    rw [h1, h2]
  · intro loads text g v h1 h2
    have hb : (extractCodeBlockJson (fix_json_issues text).data).bind
        (fun g => loads (fix_json_issues (String.mk g))) = some v := by
      rw [h1]
      simpa using h2
    unfold extract_json_from_text
    rw [hb]
  · intro loads text h1 h2
    unfold extract_json_from_text
    rw [h1, h2]
  · intro loads resp dur h
    cases hp : parse_json_with_fallbacks loads resp "Intent analysis" with
    | mk fl pv =>
        rw [hp] at h
        simp at h
        subst h
        simp [run_intent_analysis, hp]
  · intro s h1 h2
    rw [intentSections, if_neg (by simp [h1]), if_pos (by simp [h2, errTruthy])]
  · intro issues maxRetries h
    refine ⟨rfl, ?_⟩
    have hspec := (synthesisLoop_ok_spec issues (maxAttemptsOf true maxRetries) 0).2.2.1
    unfold runSynthesisLoop
    have hmax : maxAttemptsOf true maxRetries = maxRetries := rfl
    exact hspec (by omega)

set_option maxRecDepth 8000 in
/-- Witness for C9 at concrete inputs: an always-failing decoder on prose
with no JSON anywhere yields the error pair, the failure intent record, the
intent-warning placeholder in the combined document, and a synthesis loop
that still makes its calls. -/
theorem c9_intent_decode_fallback_chain_witness :
    parse_json_with_fallbacks loadsNone "The PR looks fine overall." "Intent analysis"
      = (false, errDict "The PR looks fine overall.")
    ∧ run_intent_analysis loadsNone (.ok (true, "The PR looks fine overall.", none)) 42
      = { intent_success := false, intent_analysis := .obj []
          intent_error := some "Failed to parse intent analysis response"
          intent_duration_ms := 42 }
    ∧ intentSections c9State = [intentWarningLine c9State]
    ∧ 1 ≤ callsMade (runSynthesisLoop (fun n => Except.ok ((fun _ => 0) n)) true 5) := by
  have h := c9_intent_decode_fallback_chain
  refine ⟨h.2.1 loadsNone "The PR looks fine overall." rfl ?_,
    h.2.2.2.2.1 loadsNone "The PR looks fine overall." 42 ?_,
    h.2.2.2.2.2.1 c9State rfl rfl,
    (h.2.2.2.2.2.2 (fun _ => 0) 5 (by norm_num)).2⟩
  · rfl
  · rfl

/-- C10: `parse_json_with_fallbacks` is total over all string inputs by
construction (every scanning helper structurally terminates) and always
returns a pair: when the flag is false the value is the error dictionary for
the raw input, and when the flag is true the value was produced by a
successful decode of some candidate string. -/
theorem c10_parse_total_shape (loads : String → Option JVal) (text ectx : String) :
    ((parse_json_with_fallbacks loads text ectx).1 = false →
      (parse_json_with_fallbacks loads text ectx).2 = errDict text)
    ∧ ((parse_json_with_fallbacks loads text ectx).1 = true →
      ∃ s, loads s = some (parse_json_with_fallbacks loads text ectx).2) := by
  cases hd : loads (fix_json_issues text) with
  | some v =>
      have heq : parse_json_with_fallbacks loads text ectx = (true, v) := by
        unfold parse_json_with_fallbacks
        rw [hd]
      rw [heq]
      exact ⟨fun h => by simp at h, fun _ => ⟨_, by rw [hd]⟩⟩
  | none =>
      cases he : extract_json_from_text loads text with
      | some v =>
          by_cases ht : v.truthy = true
          · have heq : parse_json_with_fallbacks loads text ectx = (true, v) := by
              simp [parse_json_with_fallbacks, hd, he, ht]
            rw [heq]
            exact ⟨fun h => by simp at h, fun _ => extract_some_decoded loads text v he⟩
          · have heq : parse_json_with_fallbacks loads text ectx = (false, errDict text) := by
              simp [parse_json_with_fallbacks, hd, he, ht]
            rw [heq]
            exact ⟨fun _ => rfl, fun h => by simp at h⟩
      | none =>
          have heq : parse_json_with_fallbacks loads text ectx = (false, errDict text) := by
            unfold parse_json_with_fallbacks
            rw [hd, he]
          rw [heq]
          exact ⟨fun _ => rfl, fun h => by simp at h⟩

/-- Witness for C10 at concrete inputs: the empty string and an
unbalanced-brace string produce the error dictionary; a decoder that accepts
the two-character object text produces a flag-true pair whose value came
from a successful decode. -/
theorem c10_parse_total_shape_witness :
    (parse_json_with_fallbacks loadsNone "" "ctx").2 = errDict ""
    ∧ (parse_json_with_fallbacks loadsNone "\x7bunbalanced" "ctx").2
        = errDict "\x7bunbalanced"
    ∧ ∃ s, loadsObj s = some (parse_json_with_fallbacks loadsObj "\x7b\x7d" "ctx").2 := by
  have h1 := c10_parse_total_shape loadsNone "" "ctx"
  have h2 := c10_parse_total_shape loadsNone "\x7bunbalanced" "ctx"
  have h3 := c10_parse_total_shape loadsObj "\x7b\x7d" "ctx"
  exact ⟨h1.1 rfl, h2.1 rfl, h3.2 rfl⟩

/-- Witness for C8 at concrete inputs: analyzer timeout plus successful
extraction keeps the symbol table; extraction failure plus analyzer success
keeps the findings with an empty symbol table. -/
theorem c8_sast_subtask_failure_independence_witness :
    (run_sast_analysis sastDepsEx [] (some ctxEx8) true
        (.ok (false, [], some "Semgrep analysis timed out after 120 seconds")) (.ok symTabEx)).sast_success = false
    ∧ (run_sast_analysis sastDepsEx [] (some ctxEx8) true
        (.ok (false, [], some "Semgrep analysis timed out after 120 seconds")) (.ok symTabEx)).symbol_table_prompt = "SYMTAB"
    ∧ (run_sast_analysis sastDepsEx [] (some ctxEx8) true
        (.ok (true, [], none)) (.error "tree-sitter crashed")).symbol_table_prompt = "" := by
  have h := c8_sast_subtask_failure_independence sastDepsEx [] (some ctxEx8) true
    "Semgrep analysis timed out after 120 seconds" symTabEx []
    "tree-sitter crashed" (by decide)
  exact ⟨h.1, h.2.2.1, h.2.2.2.2.2⟩

end DiffCOT
